import Mathlib

set_option linter.unusedVariables false

/-!
Verification of the stage orchestration and resumable pipeline of the
multi-layered story generator.

The development shallowly embeds the repository's Python sources:

* `src/utils.py` — `call_llm` (retry loop with exponential backoff and jitter);
* `src/layers/chapter_layer.py` — `chapter_layer` (structured-JSON parsing,
  final-chapter intent override);
* `src/layers/timeline_layer.py` — `timeline_layer` and
  `extract_json_from_response`;
* `src/layers/section_layer.py` — `extract_plot_and_intent`;
* `src/layers/paragraph_layer.py` — `extract_paragraph_and_intent`;
* `src/main.py` — the `StoryGenerator` orchestrator (`generate_plot`,
  `generate_backstory`, `generate_characters`, `generate_chapters`,
  `generate_timeline_for_chapter`, `generate_sections`,
  `generate_paragraphs`).

Modelling conventions:

* The external text-generation service is opaque.  Stage functions that the
  orchestrator invokes are supplied as an `Oracles` record of deterministic
  functions receiving exactly the arguments the Python call sites pass; the
  validation filters are likewise an opaque `Filters` record.  Stages that
  parse generator output (`chapter_layer`, `extract_plot_and_intent`,
  `extract_paragraph_and_intent`, `timeline_layer`) are embedded separately
  as functions of the raw generator response text.
* Python's `json.loads` is an external library routine.  It is modelled by an
  explicit `jsonLoads` parameter: `none` models a `json.JSONDecodeError`
  (response not well-formed JSON) and `some fields` models a successful parse
  of an object with string fields — under `json_mode=True` the service
  returns a JSON object whenever parsing succeeds.  For the timeline stage
  the decoded value is a `Snapshot` (character → timestamp → event).
* The filesystem under `output/` is modelled by `Store`: an association list
  of text artifacts keyed by `Key`, a list of persisted per-chapter timeline
  snapshots, and a list of existing section directories (used by the resume
  child-count discovery).  `read_from_file` returns `none` exactly when the
  artifact is absent; reads of present artifacts succeed (a failing read is
  treated by the code as a cache miss/log, which this model does not need).
* Exceptions are modelled by `Option PyErr` results: `some e` aborts the
  enclosing computation exactly where the Python exception propagates.
-/

instance {ε α : Type} [DecidableEq ε] [DecidableEq α] : DecidableEq (Except ε α) := by
  intro a b
  cases a <;> cases b
  case error.error e1 e2 =>
    exact decidable_of_iff (e1 = e2) ⟨by rintro rfl; rfl, by intro h; injection h⟩
  case error.ok e1 a2 => exact isFalse (by intro h; injection h)
  case ok.error a1 e2 => exact isFalse (by intro h; injection h)
  case ok.ok a1 a2 =>
    exact decidable_of_iff (a1 = a2) ⟨by rintro rfl; rfl, by intro h; injection h⟩

/-- Python exception values that the embedded code can raise. -/
inductive PyErr where
  | valueError (msg : String)
  | indexError (msg : String)
  deriving DecidableEq, Repr

/-- Logical artifact keys: the files the orchestrator reads and writes under
`output/` (`main.py`).  Chapter, section and paragraph indices are the
internal 0-based indices; on disk they appear 1-based and zero-padded. -/
inductive Key where
  | masterPlot
  | backstory
  | character
  | chapterPlot (ch : Nat)
  | chapterIntent (ch : Nat)
  | sectionPlot (ch sec : Nat)
  | sectionIntent (ch sec : Nat)
  | paragraphText (ch sec p : Nat)
  | paragraphIntent (ch sec p : Nat)
  | paragraphStyled (ch sec p : Nat)
  | completeStory
  deriving DecidableEq, Repr

/-- A timeline snapshot: character name → list of (timestamp, event) pairs.
Models the JSON object stored in `_timeline.txt` and the entries of
`all_characters_timeline`. -/
abbrev Snapshot : Type := List (String × List (String × String))

/-- Does a snapshot contain the event `ev` for character `c` at timestamp
`t`?  Used to express the timeline monotonicity property. -/
def snapshotHasEntry (s : Snapshot) (c t ev : String) : Bool :=
  s.any (fun ce => ce.1 == c && ce.2.any (fun te => te.1 == t && te.2 == ev))

/-- The persisted-artifact store: the model of the `output/` directory tree.

* `files` — text artifacts (most recent write first);
* `timelines` — the per-chapter `_timeline.txt` JSON snapshots;
* `secDirs` — the existing section directories, as pairs of the 0-based
  chapter index and the number in the directory name `sec_NN` (1-based as
  written by `ensure_dir`); resume-time child-count discovery lists these. -/
structure Store where
  files : List (Key × String)
  timelines : List (Nat × Snapshot)
  secDirs : List (Nat × Nat)
  deriving DecidableEq

/-- Reading a text artifact (`read_from_file`): `none` iff absent. -/
def Store.readF (s : Store) (k : Key) : Option String :=
  (s.files.find? (fun e => decide (e.1 = k))).map (fun e => e.2)

/-- Writing a text artifact (`save_to_file`). -/
def Store.writeF (s : Store) (k : Key) (v : String) : Store :=
  { s with files := (k, v) :: s.files }

/-- Reading a persisted chapter timeline (`_timeline.txt` existence + load). -/
def Store.readT (s : Store) (ch : Nat) : Option Snapshot :=
  (s.timelines.find? (fun e => decide (e.1 = ch))).map (fun e => e.2)

/-- Writing a chapter timeline (`save_timeline_to_file`). -/
def Store.writeT (s : Store) (ch : Nat) (v : Snapshot) : Store :=
  { s with timelines := (ch, v) :: s.timelines }

/-- Creating a section directory (`ensure_dir(section_dir)`): idempotent. -/
def Store.ensureSecDir (s : Store) (ch n : Nat) : Store :=
  if (ch, n) ∈ s.secDirs then s else { s with secDirs := (ch, n) :: s.secDirs }

/-- Resume discovery of existing sections of chapter `ch`
(`[d for d in chapter_dir.iterdir() if d.is_dir() and d.name.startswith("sec_")]`):
the number of distinct existing `sec_NN` directories under the chapter. -/
def Store.discoverSections (s : Store) (ch : Nat) : Nat :=
  (((s.secDirs.filter (fun e => decide (e.1 = ch))).map (fun e => e.2)).dedup).length

/-- Is `k` a paragraph text file of section `(ch, sec)`?  These are exactly
the files `NNN.txt` kept by the resume filter in `generate_paragraphs`
(ends with `.txt`, does not start with an underscore, is neither an
`_intent.txt` nor a `_styled.txt` file). -/
def Key.isParagraphFileOf (k : Key) (ch sec : Nat) : Bool :=
  match k with
  | Key.paragraphText c s _ => decide (c = ch) && decide (s = sec)
  | _ => false

/-- Resume discovery of existing paragraph files in section `(ch, sec)`:
the number of distinct persisted paragraph text files. -/
def Store.discoverParagraphs (s : Store) (ch sec : Nat) : Nat :=
  (((s.files.map (fun e => e.1)).filter (fun k => k.isParagraphFileOf ch sec)).dedup).length

/-- The empty store: a fresh `output/` directory. -/
def Store.empty : Store := ⟨[], [], []⟩

/-! ### String helpers

Executable models of the Python string operations used by
`extract_json_from_response` (`in`, `find`, `rfind`, `strip`, slicing,
`startswith`, `endswith`). -/

/-- First index (in characters) at or after which `pat` occurs in the
haystack, scanning from the front; models Python `str.find` (restricted to
found / not-found instead of `-1`). -/
def findSubAux (pat : List Char) : List Char → Nat → Option Nat
  | [], idx => if List.isPrefixOf pat [] then some idx else none
  | c :: t, idx =>
      if List.isPrefixOf pat (c :: t) then some idx else findSubAux pat t (idx + 1)

/-- Python `s.find(pat)` as an `Option`. -/
def strFind (s pat : String) : Option Nat :=
  findSubAux pat.data s.data 0

/-- Python `s.find(pat, start)` as an `Option` (index relative to `s`). -/
def strFindFrom (s pat : String) (start : Nat) : Option Nat :=
  (findSubAux pat.data (s.data.drop start) 0).map (fun i => start + i)

/-- Python `s.rfind(pat)` as an `Option`: the greatest index at which `pat`
occurs. -/
def strRfind (s pat : String) : Option Nat :=
  let idxs := (List.range (s.data.length + 1)).filter
    (fun i => List.isPrefixOf pat.data (s.data.drop i))
  idxs.getLast?

/-- Python substring test `pat in s`. -/
def containsSub (s pat : String) : Bool :=
  (strFind s pat).isSome

/-- Python slice `s[a:b]` (character indices). -/
def strSlice (s : String) (a b : Nat) : String :=
  String.mk ((s.data.drop a).take (b - a))

/-- Python `s[:n]` (character prefix). -/
def strTake (s : String) (n : Nat) : String :=
  String.mk (s.data.take n)

/-- Python `str.strip()` modelled by trimming whitespace on both ends. -/
def strStrip (s : String) : String :=
  String.mk (((s.data.dropWhile Char.isWhitespace).reverse.dropWhile
    Char.isWhitespace).reverse)

/-- Python `s.startswith(pat)`. -/
def strStartsWith (s pat : String) : Bool := List.isPrefixOf pat.data s.data

/-- Python `s.endswith(pat)`. -/
def strEndsWith (s pat : String) : Bool := List.isSuffixOf pat.data s.data

/-! ### `extract_json_from_response` (src/layers/timeline_layer.py) -/

/-- The fallback strategies of `extract_json_from_response` when no usable
code block was found: whole-response JSON, then first `{` to last `}`,
then the empty object literal. -/
def extractJsonFallback (response : String) : String :=
  let t := strStrip response
  if strStartsWith t ("\x7b") && strEndsWith t ("\x7d") then t
  else
    match strFind response ("\x7b"), strRfind response ("\x7d") with
    | some si, some ei => if ei > si then strSlice response si (ei + 1) else "\x7b\x7d"
    | _, _ => "\x7b\x7d"

/-- Model of `extract_json_from_response`: extract the JSON portion of a
generator response, trying a ```json code block first, then the fallback
strategies. -/
def extract_json_from_response (response : String) : String :=
  match strFind response ("```json") with
  | some i =>
      let start_index := i + ("```json").length
      match strFindFrom response ("```") start_index with
      | some end_index =>
          if end_index > start_index then strStrip (strSlice response start_index end_index)
          else extractJsonFallback response
      | none => extractJsonFallback response
  | none => extractJsonFallback response

/-! ### `call_llm` (src/utils.py) -/

/-- The sentinel text returned after the retry budget is exhausted. -/
def sentinelErrorText (max_retries : Nat) (e : String) : String :=
  "Error: リトライ (" ++ toString max_retries ++ "回) 後も失敗しました: " ++ e

/-- The backoff delay slept before retry number `r` (1-based), with jitter
drawn from `rand`: `initial_backoff * 2^(r-1) * (0.5 + rand (r-1))`. -/
def backoffDelay (initial_backoff : ℚ) (rand : Nat → ℚ) (r : Nat) : ℚ :=
  initial_backoff * 2 ^ (r - 1) * (1 / 2 + rand (r - 1))

/-- The retry loop of `call_llm`, entered with the current value of the
`retries` counter.  `service n` is the outcome of the service call made when
`retries = n` (`Except.error` models a raised exception).  Returns the text
result together with the list of backoff delays slept.  The loop exits either
on a successful call or once `retries` exceeds `max_retries`, returning
sentinel error text instead of raising. -/
def call_llm_from (service : Nat → Except String String) (max_retries : Nat)
    (initial_backoff : ℚ) (rand : Nat → ℚ) (retries : Nat) : String × List ℚ :=
  match service retries with
  | Except.ok content => (content, [])
  | Except.error e =>
      let r := retries + 1
      if h : r > max_retries then (sentinelErrorText max_retries e, [])
      else
        let rest := call_llm_from service max_retries initial_backoff rand r
        (rest.1, backoffDelay initial_backoff rand r :: rest.2)
  termination_by max_retries + 1 - retries
  decreasing_by
    simp only [not_lt] at h
    omega

/-- Model of `call_llm`: the retry loop started with `retries = 0`. -/
def call_llm (service : Nat → Except String String) (max_retries : Nat)
    (initial_backoff : ℚ) (rand : Nat → ℚ) : String × List ℚ :=
  call_llm_from service max_retries initial_backoff rand 0

/-! ### Structured-response parsing (chapter / section / paragraph layers)

`jsonLoads` models `json.loads` specialised to the JSON-object responses the
stages request with `json_mode=True`: `none` is a `JSONDecodeError`, and a
successful parse yields the object's string fields. -/

/-- Python `data.get(key, "")` on a decoded JSON object. -/
def getField (data : List (String × String)) (key : String) : String :=
  ((data.find? (fun e => e.1 == key)).map (fun e => e.2)).getD ("")

/-- The terminal intent string forced for the final chapter. -/
def finalChapterIntent : String := "物語はここで完結しました。"

/-- Model of `chapter_layer` (src/layers/chapter_layer.py) as a function of
the generator response: parse the JSON object, extract and validate
`chapter_plot` and `chapter_intent` (raising `ValueError` on a parse failure
or a missing/empty field), and, for the final chapter, replace the intent by
the terminal intent string. -/
def chapter_layer (jsonLoads : String → Option (List (String × String)))
    (master_plot backstories characters : String) (chapter_index : Nat)
    (previous_chapter_plots previous_chapter_intents : Option (List String))
    (is_final_chapter : Bool) (response : String) : Except PyErr (String × String) :=
  match jsonLoads response with
  | none =>
      Except.error (PyErr.valueError
        ("JSONパースに失敗しました: レスポンス: " ++ strTake response 100 ++ "..."))
  | some data =>
      let chapter_plot := getField data ("chapter_plot")
      let chapter_intent := getField data ("chapter_intent")
      if chapter_plot = "" then
        Except.error (PyErr.valueError
          ("レスポンスの値が不正です: 'chapter_plot'が見つからないか空です"))
      else if chapter_intent = "" then
        Except.error (PyErr.valueError
          ("レスポンスの値が不正です: 'chapter_intent'が見つからないか空です"))
      else
        let chapter_intent := if is_final_chapter then finalChapterIntent else chapter_intent
        Except.ok (chapter_plot, chapter_intent)

/-- Model of `extract_plot_and_intent` (src/layers/section_layer.py): parse
the JSON object and extract `section_plot` and `section_intent`, raising
`ValueError` on a parse failure or a missing/empty field. -/
def extract_plot_and_intent (jsonLoads : String → Option (List (String × String)))
    (response : String) : Except PyErr (String × String) :=
  match jsonLoads response with
  | none =>
      Except.error (PyErr.valueError
        ("JSONパースに失敗しました: レスポンス: " ++ strTake response 100 ++ "..."))
  | some data =>
      let section_plot := getField data ("section_plot")
      let section_intent := getField data ("section_intent")
      if section_plot = "" then
        Except.error (PyErr.valueError ("'section_plot' が見つからないか空です"))
      else if section_intent = "" then
        Except.error (PyErr.valueError ("'section_intent' が見つからないか空です"))
      else Except.ok (section_plot, section_intent)

/-- Model of `extract_paragraph_and_intent` (src/layers/paragraph_layer.py):
parse the JSON object and extract `paragraph` and `paragraph_intent`, raising
`ValueError` on a parse failure or a missing/empty field. -/
def extract_paragraph_and_intent (jsonLoads : String → Option (List (String × String)))
    (response : String) : Except PyErr (String × String) :=
  match jsonLoads response with
  | none =>
      Except.error (PyErr.valueError
        ("JSONパースに失敗しました: レスポンス: " ++ strTake response 100 ++ "..."))
  | some data =>
      let paragraph := getField data ("paragraph")
      let paragraph_intent := getField data ("paragraph_intent")
      if paragraph = "" then
        Except.error (PyErr.valueError ("'paragraph' が見つからないか空です"))
      else if paragraph_intent = "" then
        Except.error (PyErr.valueError ("'paragraph_intent' が見つからないか空です"))
      else Except.ok (paragraph, paragraph_intent)

/-! ### `timeline_layer` (src/layers/timeline_layer.py) -/

/-- Model of `timeline_layer` as a function of the generator response.
`jsonLoadsSnapshot` models `json.loads` on the extracted JSON string (`none`
is a `JSONDecodeError`).  The second component counts the generator calls
performed: the unguarded index `chapter_plots[len(previous_timeline)]` is
evaluated before any generation, so an out-of-range index raises `IndexError`
with zero calls made.  On a parse failure the stage substitutes the empty
snapshot instead of raising; either way it appends one entry to a copy of the
previous timeline. -/
def timeline_layer (jsonLoadsSnapshot : String → Option Snapshot)
    (master_plot backstories characters : String)
    (chapter_plots : List String) (previous_timeline : List Snapshot)
    (response : String) : Except PyErr (List Snapshot) × Nat :=
  let current_chapter_index := previous_timeline.length
  match chapter_plots.get? current_chapter_index with
  | none => (Except.error (PyErr.indexError ("list index out of range")), 0)
  | some _current_chapter_plot =>
      let json_str := extract_json_from_response response
      let new_timeline_entry := (jsonLoadsSnapshot json_str).getD ([] : Snapshot)
      (Except.ok (previous_timeline ++ [new_timeline_entry]), 1)

/-! ### Pipeline orchestrator (src/main.py, class StoryGenerator)

The orchestrator is embedded as explicit state-passing over `GenState`.  The
stage functions and filters it invokes are opaque collaborators supplied as
records of deterministic functions (`Oracles`, `Filters`) receiving exactly
the arguments the Python call sites pass.  Every stage invocation is recorded
in an event trace. -/

/-- One recorded invocation of a stage function or filter. -/
inductive Event where
  | plotCall
  | backstoryCall
  | characterCall
  | chapterCall (ch : Nat) (is_final : Bool)
  | timelineCall (ch : Nat)
  | sectionCall (ch sec : Nat)
  | paragraphCall (ch sec p : Nat)
  | styleCall (ch sec p : Nat)
  | bcvfCall (ch : Nat)
  | chCcvfCall
  | secCcvfCall (ch : Nat)
  deriving DecidableEq, Repr

/-- The stage functions, as the orchestrator sees them.  Each field receives
the arguments of the corresponding Python call site.  Stages that parse a
structured response may raise (`Except.error`); the free-text stages and the
style filter return plain text. -/
structure Oracles where
  plot_layer : String → String
  backstory_layer : String → String
  character_layer : String → String → String
  chapter_layer : String → String → String → Nat → Option (List String) →
    Option (List String) → Bool → Except PyErr (String × String)
  timeline_layer : String → String → String → List String → List Snapshot →
    Except PyErr (List Snapshot)
  section_layer : String → String → String → List Snapshot → String →
    List String → Option String → List (List String) → List String →
    Except PyErr (String × String)
  paragraph_layer : String → String → String → List Snapshot → String →
    List String → Option String → Except PyErr (String × String)
  style_filter : String → String

/-- The validation filters (opaque judgment functions returning text). -/
structure Filters where
  bcvf : String → String → String → String → String → String
  chapter_ccvf : String → String → List Snapshot → String → List String → String
  section_ccvf : String → String → List Snapshot → String → String →
    List String → String

/-- The mutable fields of `StoryGenerator` together with the artifact store,
the stage-invocation trace and the validation warning log. -/
structure GenState where
  store : Store
  trace : List Event
  warnings : List String
  master_plot : String
  backstories : String
  characters : String
  chapter_plots : List String
  chapter_intents : List String
  all_characters_timeline : List Snapshot
  section_plots : List (List String)
  section_intents : List (List String)
  story_text : String
  deriving DecidableEq

/-- The state of a fresh `StoryGenerator` over a given store. -/
def GenState.init (store : Store) : GenState :=
  ⟨store, [], [], "", "", "", [], [], [], [], [], ""⟩

/-- Append one event to the trace. -/
def GenState.addTrace (st : GenState) (e : Event) : GenState :=
  { st with trace := st.trace ++ [e] }

/-- The state with the warning log erased: the validation-independent core of
the run (stage invocations, persisted artifacts, accumulated narrative
state). -/
def GenState.core (st : GenState) : GenState :=
  { st with warnings := [] }

/-- Record the outcome of a validation filter: a judgment containing the
literal marker `OK` passes silently, anything else only appends a warning.
No branch raises or alters any other field. -/
def noteValidation (st : GenState) (validation failMsg : String) : GenState :=
  if containsSub validation ("OK") then st
  else { st with warnings := st.warnings ++ [failMsg] }

/-- Sequential `for i in indices` over a state `σ`, aborting at the first
step that raises (Python exception propagation out of the loop). -/
def pyFor {σ : Type} (body : Nat → σ → σ × Option PyErr) :
    List Nat → σ → σ × Option PyErr
  | [], s => (s, none)
  | i :: rest, s =>
      match body i s with
      | (s', none) => pyFor body rest s'
      | (s', some e) => (s', some e)

/-- `StoryGenerator.generate_plot`: reuse the persisted master plot when
resuming and it exists, otherwise invoke the Plot stage and persist. -/
def generate_plot (o : Oracles) (resume : Bool) (user_input : String)
    (st : GenState) : GenState :=
  match (if resume then st.store.readF Key.masterPlot else none) with
  | some cached_master_plot => { st with master_plot := cached_master_plot }
  | none =>
      let master_plot := o.plot_layer user_input
      { st.addTrace Event.plotCall with
        master_plot := master_plot
        store := st.store.writeF Key.masterPlot master_plot }

/-- `StoryGenerator.generate_backstory`: run `generate_plot` first if the
master plot is still empty, then cache-or-compute the backstory. -/
def generate_backstory (o : Oracles) (resume : Bool) (user_input : String)
    (st : GenState) : GenState :=
  let st := if st.master_plot = "" then generate_plot o resume user_input st else st
  match (if resume then st.store.readF Key.backstory else none) with
  | some cached_backstories => { st with backstories := cached_backstories }
  | none =>
      let backstories := o.backstory_layer st.master_plot
      { st.addTrace Event.backstoryCall with
        backstories := backstories
        store := st.store.writeF Key.backstory backstories }

/-- `StoryGenerator.generate_characters`: run `generate_backstory` first if
the backstories are still empty, then cache-or-compute the characters. -/
def generate_characters (o : Oracles) (resume : Bool) (user_input : String)
    (st : GenState) : GenState :=
  let st := if st.backstories = "" then generate_backstory o resume user_input st else st
  match (if resume then st.store.readF Key.character else none) with
  | some cached_characters => { st with characters := cached_characters }
  | none =>
      let characters := o.character_layer st.master_plot st.backstories
      { st.addTrace Event.characterCall with
        characters := characters
        store := st.store.writeF Key.character characters }

/-- `StoryGenerator.generate_timeline_for_chapter`: reuse the persisted
chapter timeline when resuming and `_timeline.txt` exists (appending it or
rehydrating the slot), otherwise invoke the Timeline stage and persist entry
`chapter_index` of the updated timeline. -/
def generate_timeline_for_chapter (o : Oracles) (resume : Bool)
    (chapter_index : Nat) (st : GenState) : GenState × Option PyErr :=
  match (if resume then st.store.readT chapter_index else none) with
  | some timeline_data =>
      if st.all_characters_timeline.length ≤ chapter_index then
        ({ st with all_characters_timeline := st.all_characters_timeline ++ [timeline_data] },
         none)
      else
        ({ st with all_characters_timeline := st.all_characters_timeline.set chapter_index timeline_data },
         none)
  | none =>
      let st := st.addTrace (Event.timelineCall chapter_index)
      match o.timeline_layer st.master_plot st.backstories st.characters
          st.chapter_plots st.all_characters_timeline with
      | Except.error e => (st, some e)
      | Except.ok updated =>
          ({ st with
             all_characters_timeline := updated
             store := st.store.writeT chapter_index (updated.getD chapter_index ([] : Snapshot)) },
           none)

/-- The cache-or-compute step for one chapter's `_plot.txt` / `_intent.txt`:
reuse both artifacts when resuming and both exist, otherwise invoke the
Chapter stage (with `is_final_chapter` set exactly on the last index) and
persist both fields.  Returns the chapter plot and intent along with the
updated state. -/
def chapterStep (o : Oracles) (resume : Bool) (chapter_count ch : Nat)
    (st : GenState) : (GenState × String × String) × Option PyErr :=
  match (if resume then st.store.readF (Key.chapterPlot ch) else none),
        (if resume then st.store.readF (Key.chapterIntent ch) else none) with
  | some cached_chapter_plot, some cached_chapter_intent =>
      ((st, cached_chapter_plot, cached_chapter_intent), none)
  | _, _ =>
      let is_final_chapter := ch == chapter_count - 1
      let st := st.addTrace (Event.chapterCall ch is_final_chapter)
      match o.chapter_layer st.master_plot st.backstories st.characters ch
          (if st.chapter_plots.isEmpty then none else some st.chapter_plots)
          (if st.chapter_intents.isEmpty then none else some st.chapter_intents)
          is_final_chapter with
      | Except.error e => ((st, "", ""), some e)
      | Except.ok (chapter_plot, chapter_intent) =>
          (({ st with
              store := (st.store.writeF (Key.chapterPlot ch) chapter_plot).writeF
                (Key.chapterIntent ch) chapter_intent },
            chapter_plot, chapter_intent), none)

/-- One iteration of the chapter loop of `generate_chapters`: the chapter
cache-or-compute step, appending the plot and intent to the accumulating
lists, the per-chapter timeline, and the (non-blocking) backstory-consistency
validation. -/
def chapterBody (o : Oracles) (f : Filters) (resume : Bool)
    (chapter_count : Nat) (ch : Nat) (st : GenState) : GenState × Option PyErr :=
  match chapterStep o resume chapter_count ch st with
  | ((st, _, _), some e) => (st, some e)
  | ((st, chapter_plot, chapter_intent), none) =>
      let st := { st with
        chapter_plots := st.chapter_plots ++ [chapter_plot]
        chapter_intents := st.chapter_intents ++ [chapter_intent] }
      match generate_timeline_for_chapter o resume ch st with
      | (st, some e) => (st, some e)
      | (st, none) =>
          let st := st.addTrace (Event.bcvfCall ch)
          let validation := f.bcvf st.master_plot st.backstories st.characters
            chapter_plot chapter_intent
          (noteValidation st validation
            ("Chapter " ++ toString (ch + 1) ++ " validation failed: " ++ validation),
           none)

/-- `StoryGenerator.generate_chapters`: run `generate_characters` first if
the characters are still empty, loop the chapter body over all chapter
indices, then run the (non-blocking) chapter-level causal-chain
validation. -/
def generate_chapters (o : Oracles) (f : Filters) (resume : Bool)
    (user_input : String) (chapter_count : Nat) (st : GenState) :
    GenState × Option PyErr :=
  let st := if st.characters = "" then generate_characters o resume user_input st else st
  match pyFor (chapterBody o f resume chapter_count) (List.range chapter_count) st with
  | (st, some e) => (st, some e)
  | (st, none) =>
      let st := st.addTrace Event.chCcvfCall
      let validation := f.chapter_ccvf st.master_plot st.backstories
        st.all_characters_timeline st.characters st.chapter_plots
      (noteValidation st validation
        ("Overall chapter validation failed: " ++ validation), none)

/-- The per-chapter local variables of the section loop
(`section_plots`, `section_intents`, `prev_sections`,
`prev_section_intent` in `generate_sections`). -/
structure SecLoopVars where
  section_plots : List String
  section_intents : List String
  prev_sections : List String
  prev_section_intent : Option String
  deriving DecidableEq

/-- The initial section-loop variables of a chapter. -/
def SecLoopVars.init : SecLoopVars := ⟨[], [], [], none⟩

/-- Append a generated or reloaded section to the loop variables. -/
def SecLoopVars.push (v : SecLoopVars) (section_plot section_intent : String) :
    SecLoopVars :=
  ⟨v.section_plots ++ [section_plot], v.section_intents ++ [section_intent],
   v.prev_sections ++ [section_plot], some section_intent⟩

/-- One iteration of the section loop: create the section directory, reuse
both persisted section artifacts when resuming and they exist, otherwise
invoke the Section stage with the sibling and cross-chapter context and
persist both fields. -/
def sectionStep (o : Oracles) (resume : Bool) (ch : Nat) (chapter_plot : String)
    (sec : Nat) (s : GenState × SecLoopVars) :
    (GenState × SecLoopVars) × Option PyErr :=
  let st := { s.1 with store := s.1.store.ensureSecDir ch (sec + 1) }
  let vars := s.2
  match (if resume then st.store.readF (Key.sectionPlot ch sec) else none),
        (if resume then st.store.readF (Key.sectionIntent ch sec) else none) with
  | some cached_section_plot, some cached_section_intent =>
      ((st, vars.push cached_section_plot cached_section_intent), none)
  | _, _ =>
      let all_previous_sections := if ch > 0 then st.section_plots.take ch else []
      let remaining_chapter_plots :=
        if ch + 1 < st.chapter_plots.length then st.chapter_plots.drop (ch + 1) else []
      let st := st.addTrace (Event.sectionCall ch sec)
      match o.section_layer st.master_plot st.backstories st.characters
          st.all_characters_timeline chapter_plot vars.prev_sections
          vars.prev_section_intent all_previous_sections remaining_chapter_plots with
      | Except.error e => ((st, vars), some e)
      | Except.ok (section_plot, section_intent) =>
          (({ st with
              store := (st.store.writeF (Key.sectionPlot ch sec) section_plot).writeF
                (Key.sectionIntent ch sec) section_intent },
            vars.push section_plot section_intent), none)

/-- One iteration of the chapter loop of `generate_sections`: determine the
section count (the default 3, or on resume the maximum of 3 and the number of
existing section directories), loop the section step, run the (non-blocking)
section-level causal-chain validation, and append this chapter's section
lists to the state. -/
def sectionChapterBody (o : Oracles) (f : Filters) (resume : Bool)
    (ch : Nat) (st : GenState) : GenState × Option PyErr :=
  let chapter_plot := st.chapter_plots.getD ch ""
  let section_count := if resume then max 3 (st.store.discoverSections ch) else 3
  match pyFor (fun sec s => sectionStep o resume ch chapter_plot sec s)
      (List.range section_count) (st, SecLoopVars.init) with
  | ((st, _), some e) => (st, some e)
  | ((st, vars), none) =>
      let st := st.addTrace (Event.secCcvfCall ch)
      let validation := f.section_ccvf st.master_plot st.backstories
        st.all_characters_timeline st.characters chapter_plot vars.section_plots
      let st := noteValidation st validation
        ("Section validation failed in Chapter " ++ toString (ch + 1) ++ ": " ++ validation)
      ({ st with
         section_plots := st.section_plots ++ [vars.section_plots]
         section_intents := st.section_intents ++ [vars.section_intents] }, none)

/-- `StoryGenerator.generate_sections`: run `generate_chapters` first if no
chapter plots exist yet, reset the section lists, and loop the per-chapter
section body over the chapter plots. -/
def generate_sections (o : Oracles) (f : Filters) (resume : Bool)
    (user_input : String) (chapter_count : Nat) (st : GenState) :
    GenState × Option PyErr :=
  match (if st.chapter_plots.isEmpty then
          generate_chapters o f resume user_input chapter_count st
         else (st, none)) with
  | (st, some e) => (st, some e)
  | (st, none) =>
      let st := { st with section_plots := [], section_intents := [] }
      pyFor (sectionChapterBody o f resume) (List.range st.chapter_plots.length) st

/-- The per-section local variables of the paragraph loop
(`prev_paragraphs`, `prev_paragraph_intent` in `generate_paragraphs`). -/
structure ParaLoopVars where
  prev_paragraphs : List String
  prev_paragraph_intent : Option String
  deriving DecidableEq

/-- The initial paragraph-loop variables of a section. -/
def ParaLoopVars.init : ParaLoopVars := ⟨[], none⟩

/-- The tail of one paragraph iteration, shared by the cache-hit and
generate branches: apply the style filter to the paragraph, persist the
styled text, append it to the story text, and update the loop variables. -/
def paragraphFinish (o : Oracles) (ch sec p : Nat)
    (st : GenState) (story : String) (vars : ParaLoopVars)
    (paragraph paragraph_intent : String) :
    (GenState × String × ParaLoopVars) × Option PyErr :=
  let st := st.addTrace (Event.styleCall ch sec p)
  let styled_paragraph := o.style_filter paragraph
  let st := { st with
    store := st.store.writeF (Key.paragraphStyled ch sec p) styled_paragraph }
  ((st, story ++ ("\n" ++ styled_paragraph),
    ⟨vars.prev_paragraphs ++ [paragraph], some paragraph_intent⟩), none)

/-- One iteration of the paragraph loop: reuse both persisted paragraph
artifacts when resuming and they exist, otherwise invoke the Paragraph stage
and persist both fields; in both cases re-apply the style filter and extend
the story text with the styled paragraph. -/
def paragraphStep (o : Oracles) (resume : Bool) (ch sec : Nat)
    (section_plot : String) (p : Nat) (s : GenState × String × ParaLoopVars) :
    (GenState × String × ParaLoopVars) × Option PyErr :=
  let (st, story, vars) := s
  match (if resume then st.store.readF (Key.paragraphText ch sec p) else none),
        (if resume then st.store.readF (Key.paragraphIntent ch sec p) else none) with
  | some cached_paragraph, some cached_paragraph_intent =>
      paragraphFinish o ch sec p st story vars cached_paragraph cached_paragraph_intent
  | _, _ =>
      let st := st.addTrace (Event.paragraphCall ch sec p)
      match o.paragraph_layer st.master_plot st.backstories st.characters
          st.all_characters_timeline section_plot vars.prev_paragraphs
          vars.prev_paragraph_intent with
      | Except.error e => ((st, story, vars), some e)
      | Except.ok (paragraph, paragraph_intent) =>
          let st := { st with
            store := (st.store.writeF (Key.paragraphText ch sec p) paragraph).writeF
              (Key.paragraphIntent ch sec p) paragraph_intent }
          paragraphFinish o ch sec p st story vars paragraph paragraph_intent

/-- One iteration of the section loop of `generate_paragraphs`: append the
section header, determine the paragraph count (the default 5, or on resume
the maximum of 5 and the number of existing paragraph files), and loop the
paragraph step. -/
def paragraphSectionBody (o : Oracles) (resume : Bool) (ch : Nat)
    (sec : Nat) (s : GenState × String) : (GenState × String) × Option PyErr :=
  let (st, story) := s
  let story := story ++ ("\nSection " ++ toString (sec + 1) ++ "\n")
  let section_plot := (st.section_plots.getD ch []).getD sec ""
  let paragraph_count := if resume then max 5 (st.store.discoverParagraphs ch sec) else 5
  match pyFor (fun p s => paragraphStep o resume ch sec section_plot p s)
      (List.range paragraph_count) (st, story, ParaLoopVars.init) with
  | ((st, story, _), err) => ((st, story), err)

/-- One iteration of the chapter loop of `generate_paragraphs`: append the
chapter header and loop the section body over this chapter's sections. -/
def paragraphChapterBody (o : Oracles) (resume : Bool)
    (ch : Nat) (s : GenState × String) : (GenState × String) × Option PyErr :=
  let (st, story) := s
  let story := story ++ ("\n\nChapter " ++ toString (ch + 1) ++ "\n\n")
  pyFor (paragraphSectionBody o resume ch)
    (List.range (st.section_plots.getD ch []).length) (st, story)

/-- `StoryGenerator.generate_paragraphs`: run `generate_sections` first if no
section plots exist yet, assemble the story text chapter by chapter (the
chapter loop ranges over `zip(chapter_plots, section_plots)`, hence over the
shorter of the two lists), and on success store the assembled text and
persist it as `complete_story.txt`. -/
def generate_paragraphs (o : Oracles) (f : Filters) (resume : Bool)
    (user_input : String) (chapter_count : Nat) (st : GenState) :
    GenState × Option PyErr :=
  match (if st.section_plots.isEmpty then
          generate_sections o f resume user_input chapter_count st
         else (st, none)) with
  | (st, some e) => (st, some e)
  | (st, none) =>
      match pyFor (paragraphChapterBody o resume)
          (List.range (min st.chapter_plots.length st.section_plots.length))
          (st, "") with
      | ((st, _), some e) => (st, some e)
      | ((st, story_text), none) =>
          ({ st with
             story_text := story_text
             store := st.store.writeF Key.completeStory story_text }, none)

/-- A concrete prior snapshot used in the C7 counterexample. -/
def snapAlice : Snapshot := [("アリス", [("2023-05-15 14:30", "出発した")])]

/-- A decoder modelling `json.loads` on the relevant inputs of the C7
counterexample: the empty object parses to the empty snapshot, anything else
fails. -/
def jsonLoadsEmptyObj : String → Option Snapshot :=
  fun s => if s = "\x7b\x7d" then some ([] : Snapshot) else none

/-- A chapter-stage call event is well-flagged for a run of `chapter_count`
chapters when its index is in range and its final flag holds exactly on the
last index; every other event is ignored. -/
def Event.chapterFlagOk (chapter_count : Nat) : Event → Bool
  | Event.chapterCall ch fin =>
      decide (ch < chapter_count) && (fin == (ch == chapter_count - 1))
  | _ => true

/-- A concrete deterministic stage-function record used to instantiate the
orchestrator theorems on closed runs. -/
def oracleFixed : Oracles :=
  { plot_layer := fun _ => "MP"
    backstory_layer := fun _ => "BS"
    character_layer := fun _ _ => "CH"
    chapter_layer := fun _ _ _ i _ _ fin =>
      Except.ok ("CP" ++ toString i, if fin then "FIN" else "CI" ++ toString i)
    timeline_layer := fun _ _ _ _ prev =>
      Except.ok (prev ++ ([([] : Snapshot)] : List Snapshot))
    section_layer := fun _ _ _ _ _ prev _ _ _ =>
      Except.ok ("SP" ++ toString prev.length, "SI" ++ toString prev.length)
    paragraph_layer := fun _ _ _ _ _ prev _ =>
      Except.ok ("P" ++ toString prev.length, "PI")
    style_filter := fun s => s }

/-- Filters that always return the passing judgment. -/
def filtersOK : Filters :=
  { bcvf := fun _ _ _ _ _ => "OK"
    chapter_ccvf := fun _ _ _ _ _ => "OK"
    section_ccvf := fun _ _ _ _ _ _ => "OK" }

/-- Filters that never return a passing judgment. -/
def filtersNG : Filters :=
  { bcvf := fun _ _ _ _ _ => "INCONSISTENT"
    chapter_ccvf := fun _ _ _ _ _ => "INCONSISTENT"
    section_ccvf := fun _ _ _ _ _ _ => "INCONSISTENT" }

/-- A store holding four pre-existing section directories under chapter 0
(`sec_01 .. sec_04`) and nothing else. -/
def storeFourSecDirs : Store := ⟨[], [], [(0, 1), (0, 2), (0, 3), (0, 4)]⟩

/-- A store holding seven pre-existing paragraph text files in section
`(0, 0)` (`001.txt .. 007.txt`) and nothing else. -/
def storeSevenParas : Store :=
  ⟨[(Key.paragraphText 0 0 0, "t0"), (Key.paragraphText 0 0 1, "t1"),
    (Key.paragraphText 0 0 2, "t2"), (Key.paragraphText 0 0 3, "t3"),
    (Key.paragraphText 0 0 4, "t4"), (Key.paragraphText 0 0 5, "t5"),
    (Key.paragraphText 0 0 6, "t6")], [], []⟩

/-- A resumed-run state over `storeSevenParas` whose section layer has
produced one section for chapter 0. -/
def stSevenParas : GenState :=
  { GenState.init storeSevenParas with section_plots := [["sp"]] }

/-- Does the trace contain a Chapter-stage invocation for chapter `ch`? -/
def traceHasChapterCall (tr : List Event) (ch : Nat) : Bool :=
  tr.any (fun e =>
    match e with
    | Event.chapterCall c _ => decide (c = ch)
    | _ => false)

/-- The resume invariant for chapter `i`: both chapter artifacts are
persisted with the given contents and the Chapter stage has not been invoked
for `i`. -/
def chapterArtifactsIntact (i : Nat) (p q : String) (st : GenState) : Prop :=
  st.store.readF (Key.chapterPlot i) = some p ∧
  st.store.readF (Key.chapterIntent i) = some q ∧
  traceHasChapterCall st.trace i = false

/-- A store holding every artifact of a tiny one-chapter story, used to
exercise the cache-hit branches. -/
def storeAll : Store :=
  ⟨[(Key.masterPlot, "MPC"), (Key.backstory, "BSC"), (Key.character, "CHC"),
    (Key.chapterPlot 0, "CP0c"), (Key.chapterIntent 0, "CI0c"),
    (Key.sectionPlot 0 0, "SP00c"), (Key.sectionIntent 0 0, "SI00c"),
    (Key.paragraphText 0 0 0, "PT000c"), (Key.paragraphIntent 0 0 0, "PI000c")],
   [(0, snapAlice)], [(0, 1)]⟩

/-- A resumed-run state over `storeAll` with the scalar stages already in
memory. -/
def stWitAll : GenState :=
  { GenState.init storeAll with master_plot := "M", backstories := "B", characters := "C" }

/-- A fresh-run state over the empty store with the scalar stages already in
memory. -/
def stWitMiss : GenState :=
  { GenState.init Store.empty with master_plot := "M", backstories := "B", characters := "C" }

/-- Setting the warnings of a state. -/
def setW (w : List String) (st : GenState) : GenState := { st with warnings := w }

/-- The number of positions at which `pat` occurs in `s` (used for the
header/body counting checks of the assembled story). -/
def countSubAux (pat : List Char) : List Char → Nat
  | [] => 0
  | c :: rest =>
      if List.isPrefixOf pat (c :: rest) then countSubAux pat rest + 1
      else countSubAux pat rest

/-- Occurrence count of a pattern in a string. -/
def countSub (s pat : String) : Nat := countSubAux pat.data s.data

/-- The fixed oracle with a constant style filter: every styled paragraph is
the literal `X`, making raw-versus-styled text distinguishable in the
assembled story. -/
def oracleAllX : Oracles := { oracleFixed with style_filter := fun _ => "X" }

/-! ### Generic lemmas about the loop combinator and the store -/

theorem pyFor_nil {σ : Type} (body : Nat → σ → σ × Option PyErr) (s : σ) :
    pyFor body [] s = (s, none) := rfl

theorem pyFor_cons {σ : Type} (body : Nat → σ → σ × Option PyErr)
    (i : Nat) (rest : List Nat) (s : σ) :
    pyFor body (i :: rest) s =
      match body i s with
      | (s', none) => pyFor body rest s'
      | (s', some e) => (s', some e) := rfl

/-- An invariant preserved by every loop body holds of the final state,
whether or not the loop aborted. -/
theorem pyFor_inv {σ : Type} (P : σ → Prop) (body : Nat → σ → σ × Option PyErr)
    (l : List Nat) (hb : ∀ i ∈ l, ∀ s, P s → P (body i s).1) :
    ∀ s, P s → P (pyFor body l s).1 := by
  induction l with
  | nil => intro s h; exact h
  | cons i rest ih =>
      intro s h
      have hstep : P (body i s).1 := hb i (List.mem_cons_self i rest) s h
      rcases hbody : body i s with ⟨s', err⟩
      rw [hbody] at hstep
      cases err with
      | none =>
          simpa [pyFor, hbody] using
            ih (fun j hj => hb j (List.mem_cons_of_mem _ hj)) s' hstep
      | some e => simpa [pyFor, hbody] using hstep

/-- If every successful body iteration increases a measure by exactly one,
then a successful loop increases it by the number of iterations. -/
theorem pyFor_count {σ : Type} (μ : σ → Nat) (body : Nat → σ → σ × Option PyErr)
    (l : List Nat) (hb : ∀ i ∈ l, ∀ s, (body i s).2 = none → μ (body i s).1 = μ s + 1) :
    ∀ s, (pyFor body l s).2 = none → μ (pyFor body l s).1 = μ s + l.length := by
  induction l with
  | nil => intro s _; simp [pyFor]
  | cons i rest ih =>
      intro s hok
      rcases hbody : body i s with ⟨s', err⟩
      cases err with
      | none =>
          have hstep : μ (body i s).1 = μ s + 1 := hb i (List.mem_cons_self i rest) s (by rw [hbody])
          rw [hbody] at hstep
          simp only [pyFor, hbody] at hok ⊢
          rw [ih (fun j hj => hb j (List.mem_cons_of_mem _ hj)) s' hok, hstep]
          simp [Nat.add_assoc, Nat.add_comm 1 rest.length]
      | some e => simp [pyFor, hbody] at hok

/-- Two loops whose bodies preserve a simulation relation and agree on
raising preserve the relation and agree on raising. -/
theorem pyFor_rel {σ : Type} (R : σ → σ → Prop)
    (b1 b2 : Nat → σ → σ × Option PyErr) (l : List Nat)
    (hb : ∀ i ∈ l, ∀ s1 s2, R s1 s2 →
      R (b1 i s1).1 (b2 i s2).1 ∧ (b1 i s1).2 = (b2 i s2).2) :
    ∀ s1 s2, R s1 s2 →
      R (pyFor b1 l s1).1 (pyFor b2 l s2).1 ∧
      (pyFor b1 l s1).2 = (pyFor b2 l s2).2 := by
  induction l with
  | nil => intro s1 s2 h; simpa [pyFor] using h
  | cons i rest ih =>
      intro s1 s2 h
      have hstep := hb i (List.mem_cons_self i rest) s1 s2 h
      rcases hb1 : b1 i s1 with ⟨s1', err1⟩
      rcases hb2 : b2 i s2 with ⟨s2', err2⟩
      rw [hb1, hb2] at hstep
      obtain ⟨hR, herr⟩ := hstep
      simp only at hR herr
      subst herr
      cases err1 with
      | none =>
          simpa [pyFor, hb1, hb2] using
            ih (fun j hj => hb j (List.mem_cons_of_mem _ hj)) s1' s2' hR
      | some e => simpa [pyFor, hb1, hb2] using hR

theorem readF_writeF_ne (s : Store) (k k' : Key) (v : String) (h : k ≠ k') :
    (s.writeF k' v).readF k = s.readF k := by
  simp [Store.readF, Store.writeF, List.find?, Ne.symm h]

theorem readF_writeF_self (s : Store) (k : Key) (v : String) :
    (s.writeF k v).readF k = some v := by
  simp [Store.readF, Store.writeF, List.find?]

theorem readF_writeT (s : Store) (k : Key) (ch : Nat) (v : Snapshot) :
    (s.writeT ch v).readF k = s.readF k := rfl

theorem readF_ensureSecDir (s : Store) (k : Key) (ch n : Nat) :
    (s.ensureSecDir ch n).readF k = s.readF k := by
  unfold Store.ensureSecDir
  split <;> rfl

theorem readT_writeF (s : Store) (ch : Nat) (k : Key) (v : String) :
    (s.writeF k v).readT ch = s.readT ch := rfl

theorem readT_ensureSecDir (s : Store) (ch' ch n : Nat) :
    (s.ensureSecDir ch n).readT ch' = s.readT ch' := by
  unfold Store.ensureSecDir
  split <;> rfl

theorem readT_writeT_ne (s : Store) (ch ch' : Nat) (v : Snapshot) (h : ch ≠ ch') :
    (s.writeT ch' v).readT ch = s.readT ch := by
  simp [Store.readT, Store.writeT, List.find?, Ne.symm h]

theorem discoverSections_writeF (s : Store) (ch : Nat) (k : Key) (v : String) :
    (s.writeF k v).discoverSections ch = s.discoverSections ch := rfl

theorem discoverSections_writeT (s : Store) (ch ch' : Nat) (v : Snapshot) :
    (s.writeT ch' v).discoverSections ch = s.discoverSections ch := rfl

theorem discoverSections_ensureSecDir_ne (s : Store) (ch ch' n : Nat) (h : ch' ≠ ch) :
    (s.ensureSecDir ch' n).discoverSections ch = s.discoverSections ch := by
  unfold Store.ensureSecDir Store.discoverSections
  split
  · rfl
  · simp [h]

theorem addTrace_store (st : GenState) (e : Event) :
    (st.addTrace e).store = st.store := rfl

theorem addTrace_trace (st : GenState) (e : Event) :
    (st.addTrace e).trace = st.trace ++ [e] := rfl

/-! ### Claim C8 — generator adapter retry policy -/

/-- If every service call from the current `retries` value through
`max_retries` fails, the loop returns the sentinel error text built from the
last error, and the delays slept are the backoff delays of retries
`retries+1 .. max_retries`. -/
theorem call_llm_from_all_fail (service : Nat → Except String String)
    (max_retries : Nat) (initial_backoff : ℚ) (rand : Nat → ℚ) (e : Nat → String) :
    ∀ fuel retries, max_retries + 1 - retries ≤ fuel → retries ≤ max_retries →
      (∀ k, retries ≤ k → k ≤ max_retries → service k = Except.error (e k)) →
      call_llm_from service max_retries initial_backoff rand retries =
        (sentinelErrorText max_retries (e max_retries),
         (List.range' (retries + 1) (max_retries - retries)).map
           (backoffDelay initial_backoff rand)) := by
  intro fuel
  induction fuel with
  | zero => intro retries hf hr _; omega
  | succ n ih =>
      intro retries hf hr hsvc
      rw [call_llm_from, hsvc retries le_rfl hr]
      by_cases hlast : retries + 1 > max_retries
      · have heq : retries = max_retries := by omega
        subst heq
        simp [hlast]
      · have hrec := ih (retries + 1) (by omega) (by omega)
          (fun k hk1 hk2 => hsvc k (by omega) hk2)
        have hsplit : max_retries - retries = (max_retries - (retries + 1)) + 1 := by omega
        simp only [hlast, dite_false, hrec, hsplit, List.range'_succ]
        simp

/-- If the first successful service call is the one made with
`retries = j`, the loop returns its content, and the delays slept are the
backoff delays of retries `retries+1 .. j`. -/
theorem call_llm_from_first_ok (service : Nat → Except String String)
    (max_retries : Nat) (initial_backoff : ℚ) (rand : Nat → ℚ) (e : Nat → String)
    (j : Nat) (c : String) :
    ∀ fuel retries, j - retries ≤ fuel → retries ≤ j → j ≤ max_retries →
      (∀ k, retries ≤ k → k < j → service k = Except.error (e k)) →
      service j = Except.ok c →
      call_llm_from service max_retries initial_backoff rand retries =
        (c, (List.range' (retries + 1) (j - retries)).map
          (backoffDelay initial_backoff rand)) := by
  intro fuel
  induction fuel with
  | zero =>
      intro retries hf hr hj hfail hok
      have heq : retries = j := by omega
      subst heq
      rw [call_llm_from, hok]
      simp
  | succ n ih =>
      intro retries hf hr hj hfail hok
      by_cases hrj : retries = j
      · subst hrj
        rw [call_llm_from, hok]
        simp
      · have hlt : retries < j := by omega
        rw [call_llm_from, hfail retries le_rfl hlt]
        have hnotlast : ¬ retries + 1 > max_retries := by omega
        have hrec := ih (retries + 1) (by omega) (by omega) hj
          (fun k hk1 hk2 => hfail k (by omega) hk2) hok
        have hsplit : j - retries = (j - (retries + 1)) + 1 := by omega
        simp only [hnotlast, dite_false, hrec, hsplit, List.range'_succ]
        simp

/-- The delays of retries `1 .. n` written with the 1-based retry number
coincide with the claim's formula indexed by the 0-based attempt count. -/
theorem range'_map_backoff (initial_backoff : ℚ) (rand : Nat → ℚ) (n : Nat) :
    (List.range' 1 n).map (backoffDelay initial_backoff rand) =
      (List.range n).map (fun k => initial_backoff * 2 ^ k * (1 / 2 + rand k)) := by
  rw [List.range'_eq_map_range, List.map_map]
  refine List.map_congr_left ?_
  intro k _
  simp [backoffDelay, Nat.add_comm 1 k]

/-- Claim C8 (confirmed): `call_llm` retries failed service calls up to
`max_retries` times (one initial attempt plus at most `max_retries`
retries), sleeping `initial_backoff * 2^(attempt-1) * (0.5 + rand)` before
each retry; after exhausting the retries it returns the sentinel error text
instead of raising, and when some attempt `j ≤ max_retries` succeeds it
returns that content after exactly `j` backoff sleeps.  In both cases the
adapter returns a value — no exception escapes the retry loop. -/
theorem call_llm_retry_policy (service : Nat → Except String String)
    (max_retries : Nat) (initial_backoff : ℚ) (rand : Nat → ℚ) (e : Nat → String) :
    ((∀ k, k ≤ max_retries → service k = Except.error (e k)) →
      call_llm service max_retries initial_backoff rand =
        (sentinelErrorText max_retries (e max_retries),
         (List.range max_retries).map
           (fun k => initial_backoff * 2 ^ k * (1 / 2 + rand k)))) ∧
    (∀ j c, j ≤ max_retries → (∀ k, k < j → service k = Except.error (e k)) →
      service j = Except.ok c →
      call_llm service max_retries initial_backoff rand =
        (c, (List.range j).map
          (fun k => initial_backoff * 2 ^ k * (1 / 2 + rand k)))) := by
  constructor
  · intro hfail
    rw [call_llm, call_llm_from_all_fail service max_retries initial_backoff rand e
      (max_retries + 1) 0 (by omega) (Nat.zero_le _)
      (fun k _ hk2 => hfail k hk2)]
    rw [Nat.sub_zero, range'_map_backoff]
  · intro j c hj hfail hok
    rw [call_llm, call_llm_from_first_ok service max_retries initial_backoff rand e
      j c (j + 1) 0 (by omega) (Nat.zero_le _) hj
      (fun k _ hk2 => hfail k hk2) hok]
    rw [Nat.sub_zero, range'_map_backoff]

/-- Witness for C8: with the default budget of 3 retries, a service that
always fails yields the sentinel text after backoff delays
`1/2, 1, 2` (unit jitter draw 0), and a service succeeding on the third
attempt yields its content after two delays. -/
theorem call_llm_retry_policy_witness :
    (call_llm (fun _ => Except.error ("boom")) 3 1 (fun _ => 0) =
      (sentinelErrorText 3 ("boom"), [1 / 2, 1, 2])) ∧
    (call_llm (fun n => if n = 2 then Except.ok ("yay") else Except.error ("boom")) 3 1
        (fun _ => 1 / 4) =
      ("yay", [3 / 4, 3 / 2])) := by
  constructor
  · have h := (call_llm_retry_policy (fun _ => Except.error ("boom")) 3 1 (fun _ => 0)
      (fun _ => "boom")).1 (fun k _ => rfl)
    rw [h]
    norm_num [List.range_succ]
  · have h := (call_llm_retry_policy
      (fun n => if n = 2 then Except.ok ("yay") else Except.error ("boom")) 3 1
      (fun _ => 1 / 4) (fun _ => "boom")).2 2 ("yay") (by omega)
      (fun k hk => by interval_cases k <;> rfl) rfl
    rw [h]
    norm_num [List.range_succ]

/-! ### Claim C10 — implicit precondition of the timeline stage -/

/-- Claim C10 (confirmed): `timeline_layer` indexes `chapter_plots` at
position `len(previous_timeline)` with no bounds guard; whenever
`len(previous_timeline) ≥ len(chapter_plots)` it raises `IndexError` with no
generator call made, and under the precondition
`len(previous_timeline) < len(chapter_plots)` the access is in range and the
stage returns normally (the error branch is unreachable). -/
theorem timeline_layer_index_guard (jls : String → Option Snapshot)
    (master_plot backstories characters : String) (chapter_plots : List String)
    (previous_timeline : List Snapshot) (response : String) :
    (chapter_plots.length ≤ previous_timeline.length →
      timeline_layer jls master_plot backstories characters chapter_plots
          previous_timeline response =
        (Except.error (PyErr.indexError ("list index out of range")), 0)) ∧
    (previous_timeline.length < chapter_plots.length →
      timeline_layer jls master_plot backstories characters chapter_plots
          previous_timeline response =
        (Except.ok (previous_timeline ++
          [(jls (extract_json_from_response response)).getD ([] : Snapshot)]), 1)) := by
  constructor
  · intro h
    simp only [timeline_layer, List.get?_len_le h]
  · intro h
    simp only [timeline_layer, List.get?_eq_get h]

/-- Witness for C10: with no chapter plots the stage raises `IndexError`
before any generation; with one chapter plot and an empty prior timeline it
returns normally after one generator call. -/
theorem timeline_layer_index_guard_witness :
    (timeline_layer (fun _ => none) "" "" "" [] [] ("resp") =
      (Except.error (PyErr.indexError ("list index out of range")), 0)) ∧
    (timeline_layer (fun _ => none) "" "" "" ["plot"] [] ("resp") =
      (Except.ok ([([] : Snapshot)] : List Snapshot), 1)) := by
  constructor
  · exact (timeline_layer_index_guard (fun _ => none) "" "" "" [] [] ("resp")).1
      (by simp)
  · have h := (timeline_layer_index_guard (fun _ => none) "" "" "" ["plot"] []
      ("resp")).2 (by simp)
    simpa using h

/-! ### Claim C9 — no marker-delimited halving fallback exists -/

/-- Counterexample for C9: the section stage's extractor, applied to a
non-empty response without the expected fields (not well-formed JSON, so
`json.loads` raises), raises `ValueError` instead of returning two non-empty
halves; likewise the paragraph extractor on the well-formed but field-less
response `{}`. -/
theorem no_halving_fallback_counterexample :
    (extract_plot_and_intent (fun _ => none) ("hello world") =
      Except.error (PyErr.valueError
        ("JSONパースに失敗しました: レスポンス: hello world..."))) ∧
    ("hello world" ≠ "") ∧
    (extract_paragraph_and_intent (fun s => if s = "\x7b\x7d" then some [] else none)
        ("\x7b\x7d") =
      Except.error (PyErr.valueError ("'paragraph' が見つからないか空です"))) ∧
    ("\x7b\x7d" ≠ "") := by
  refine ⟨rfl, by decide, rfl, by decide⟩

/-- Claim C9 (corrected): no degraded halving fallback exists.  When the
expected fields cannot be extracted — the response is not well-formed JSON,
or a required field is missing or empty — `extract_plot_and_intent` and
`extract_paragraph_and_intent` raise `ValueError` rather than splitting the
response text and returning placeholder halves. -/
theorem no_halving_fallback (jsonLoads : String → Option (List (String × String)))
    (response : String) :
    (jsonLoads response = none →
      extract_plot_and_intent jsonLoads response =
        Except.error (PyErr.valueError
          ("JSONパースに失敗しました: レスポンス: " ++ strTake response 100 ++ "...")) ∧
      extract_paragraph_and_intent jsonLoads response =
        Except.error (PyErr.valueError
          ("JSONパースに失敗しました: レスポンス: " ++ strTake response 100 ++ "..."))) ∧
    (∀ data, jsonLoads response = some data →
      getField data ("section_plot") = "" →
      extract_plot_and_intent jsonLoads response =
        Except.error (PyErr.valueError ("'section_plot' が見つからないか空です"))) ∧
    (∀ data, jsonLoads response = some data →
      getField data ("paragraph") = "" →
      extract_paragraph_and_intent jsonLoads response =
        Except.error (PyErr.valueError ("'paragraph' が見つからないか空です"))) := by
  refine ⟨fun h => ?_, fun data h hf => ?_, fun data h hf => ?_⟩
  · unfold extract_plot_and_intent extract_paragraph_and_intent
    rw [h]
    exact ⟨rfl, rfl⟩
  · unfold extract_plot_and_intent
    rw [h]
    simp [hf]
  · unfold extract_paragraph_and_intent
    rw [h]
    simp [hf]

/-- Witness for C9's amended statement: concrete instantiations of all three
failure shapes. -/
theorem no_halving_fallback_witness :
    (extract_plot_and_intent (fun _ => none) ("abc") =
        Except.error (PyErr.valueError
          ("JSONパースに失敗しました: レスポンス: abc...")) ∧
      extract_paragraph_and_intent (fun _ => none) ("abc") =
        Except.error (PyErr.valueError
          ("JSONパースに失敗しました: レスポンス: abc..."))) ∧
    (extract_plot_and_intent (fun _ => some [("other", "x")]) ("r") =
      Except.error (PyErr.valueError ("'section_plot' が見つからないか空です"))) ∧
    (extract_paragraph_and_intent (fun _ => some [("paragraph", "")]) ("r") =
      Except.error (PyErr.valueError ("'paragraph' が見つからないか空です"))) := by
  refine ⟨?_, ?_, ?_⟩
  · have h := (no_halving_fallback (fun _ => none) ("abc")).1 rfl
    simpa using h
  · exact (no_halving_fallback (fun _ => some [("other", "x")]) ("r")).2.1
      [("other", "x")] rfl rfl
  · exact (no_halving_fallback (fun _ => some [("paragraph", "")]) ("r")).2.2
      [("paragraph", "")] rfl rfl

/-! ### Claim C7 — timeline monotonicity -/

/-- Counterexample for C7: on a run whose chapter-1 generator response is
unparsable, the Timeline stage appends the empty snapshot, so an entry
present in `timeline[0]` is absent from `timeline[1]` — the code never
enforces per-entry monotonicity between consecutive snapshots (it trusts the
generator to copy prior entries forward). -/
theorem timeline_monotonicity_counterexample :
    (timeline_layer jsonLoadsEmptyObj "" "" "" ["plot0", "plot1"] [snapAlice]
        ("unparsable response") =
      (Except.ok ([snapAlice, ([] : Snapshot)] : List Snapshot), 1)) ∧
    snapshotHasEntry snapAlice ("アリス") ("2023-05-15 14:30") ("出発した") = true ∧
    snapshotHasEntry ([] : Snapshot) ("アリス") ("2023-05-15 14:30") ("出発した") = false := by
  refine ⟨rfl, rfl, rfl⟩

/-- Claim C7 (corrected): the Timeline stage operates on the chapter whose
index equals `len(previousTimeline)` and extends the timeline by exactly one
snapshot — every prior snapshot is preserved verbatim at its index, never
removed or altered.  The appended snapshot is whatever the generator
response parses to (the empty snapshot on parse failure); per-entry
monotonicity from `timeline[i]` into `timeline[i+1]` is not enforced by the
code. -/
theorem timeline_layer_extends_prior (jls : String → Option Snapshot)
    (master_plot backstories characters : String) (chapter_plots : List String)
    (previous_timeline : List Snapshot) (response : String)
    (h : previous_timeline.length < chapter_plots.length) :
    timeline_layer jls master_plot backstories characters chapter_plots
        previous_timeline response =
      (Except.ok (previous_timeline ++
        [(jls (extract_json_from_response response)).getD ([] : Snapshot)]), 1) ∧
    ∀ i s, previous_timeline.get? i = some s →
      (previous_timeline ++
        [(jls (extract_json_from_response response)).getD ([] : Snapshot)]).get? i = some s := by
  refine ⟨(timeline_layer_index_guard jls master_plot backstories characters
    chapter_plots previous_timeline response).2 h, ?_⟩
  intro i s hi
  have hlen : i < previous_timeline.length := by
    by_contra hc
    rw [List.get?_len_le (Nat.le_of_not_lt hc)] at hi
    cases hi
  rw [List.get?_append hlen]
  exact hi

/-- Witness for C7's amended statement: a concrete in-range invocation, with
the preservation fact read off at index 0. -/
theorem timeline_layer_extends_prior_witness :
    (timeline_layer jsonLoadsEmptyObj "" "" "" ["plot0", "plot1"] [snapAlice]
        ("ok response \x7b\x7d") =
      (Except.ok ([snapAlice] ++
        [(jsonLoadsEmptyObj (extract_json_from_response ("ok response \x7b\x7d"))).getD
          ([] : Snapshot)]), 1)) ∧
    ([snapAlice] ++
      [(jsonLoadsEmptyObj (extract_json_from_response ("ok response \x7b\x7d"))).getD
        ([] : Snapshot)]).get? 0 = some snapAlice := by
  have h := timeline_layer_extends_prior jsonLoadsEmptyObj "" "" "" ["plot0", "plot1"]
    [snapAlice] ("ok response \x7b\x7d") (by simp)
  exact ⟨h.1, h.2 0 snapAlice rfl⟩

/-! ### Claim C6 — parse-error asymmetry between stages -/

theorem noteValidation_trace (st : GenState) (v m : String) :
    (noteValidation st v m).trace = st.trace := by
  unfold noteValidation
  split <;> rfl

/-- Claim C6 (confirmed): on an unparsable generator response the Timeline
stage does not raise — it appends the empty snapshot and returns normally —
whereas the Chapter, Section and Paragraph stages raise `ValueError` when the
response is not well-formed JSON or the required field is missing or empty,
and a raising Chapter stage aborts `generate_chapters`. -/
theorem parse_error_asymmetry (jls : String → Option Snapshot)
    (jsonLoads : String → Option (List (String × String)))
    (mp bs cs : String) (chapter_plots : List String)
    (previous_timeline : List Snapshot) (response : String) :
    (previous_timeline.length < chapter_plots.length →
      jls (extract_json_from_response response) = none →
      timeline_layer jls mp bs cs chapter_plots previous_timeline response =
        (Except.ok (previous_timeline ++ [([] : Snapshot)]), 1)) ∧
    (∀ ci pp pi fin, jsonLoads response = none →
      ∃ m, chapter_layer jsonLoads mp bs cs ci pp pi fin response =
        Except.error (PyErr.valueError m)) ∧
    (∀ ci pp pi fin data, jsonLoads response = some data →
      (getField data ("chapter_plot") = "" ∨ getField data ("chapter_intent") = "") →
      ∃ m, chapter_layer jsonLoads mp bs cs ci pp pi fin response =
        Except.error (PyErr.valueError m)) ∧
    (jsonLoads response = none →
      ∃ m, extract_plot_and_intent jsonLoads response =
        Except.error (PyErr.valueError m)) ∧
    (∀ data, jsonLoads response = some data →
      (getField data ("section_plot") = "" ∨ getField data ("section_intent") = "") →
      ∃ m, extract_plot_and_intent jsonLoads response =
        Except.error (PyErr.valueError m)) ∧
    (jsonLoads response = none →
      ∃ m, extract_paragraph_and_intent jsonLoads response =
        Except.error (PyErr.valueError m)) ∧
    (∀ data, jsonLoads response = some data →
      (getField data ("paragraph") = "" ∨ getField data ("paragraph_intent") = "") →
      ∃ m, extract_paragraph_and_intent jsonLoads response =
        Except.error (PyErr.valueError m)) ∧
    (∀ (o : Oracles) (f : Filters) (u : String) (cc : Nat) (st : GenState) (e : PyErr),
      0 < cc → st.characters ≠ "" →
      o.chapter_layer st.master_plot st.backstories st.characters 0
        (if st.chapter_plots.isEmpty then none else some st.chapter_plots)
        (if st.chapter_intents.isEmpty then none else some st.chapter_intents)
        (0 == cc - 1) = Except.error e →
      (generate_chapters o f false u cc st).2 = some e) := by
  refine ⟨fun hlen hparse => ?_, fun ci pp pi fin h => ?_, fun ci pp pi fin data h hf => ?_,
    fun h => ?_, fun data h hf => ?_, fun h => ?_, fun data h hf => ?_,
    fun o f u cc st e hcc hch horacle => ?_⟩
  · have := (timeline_layer_index_guard jls mp bs cs chapter_plots
      previous_timeline response).2 hlen
    rw [this, hparse]
    rfl
  · exact ⟨_, by unfold chapter_layer; rw [h]⟩
  · refine ⟨if getField data ("chapter_plot") = "" then
      "レスポンスの値が不正です: 'chapter_plot'が見つからないか空です" else
      "レスポンスの値が不正です: 'chapter_intent'が見つからないか空です", ?_⟩
    unfold chapter_layer
    rw [h]
    rcases hf with hf | hf
    · simp [hf]
    · by_cases hp : getField data ("chapter_plot") = "" <;> simp [hp, hf]
  · exact ⟨_, by unfold extract_plot_and_intent; rw [h]⟩
  · refine ⟨if getField data ("section_plot") = "" then
      "'section_plot' が見つからないか空です" else
      "'section_intent' が見つからないか空です", ?_⟩
    unfold extract_plot_and_intent
    rw [h]
    rcases hf with hf | hf
    · simp [hf]
    · by_cases hp : getField data ("section_plot") = "" <;> simp [hp, hf]
  · exact ⟨_, by unfold extract_paragraph_and_intent; rw [h]⟩
  · refine ⟨if getField data ("paragraph") = "" then
      "'paragraph' が見つからないか空です" else
      "'paragraph_intent' が見つからないか空です", ?_⟩
    unfold extract_paragraph_and_intent
    rw [h]
    rcases hf with hf | hf
    · simp [hf]
    · by_cases hp : getField data ("paragraph") = "" <;> simp [hp, hf]
  · obtain ⟨m, rfl⟩ : ∃ m, cc = m + 1 := ⟨cc - 1, by omega⟩
    have hbody : chapterBody o f false (m + 1) 0 st =
        (st.addTrace (Event.chapterCall 0 (0 == m + 1 - 1)), some e) := by
      unfold chapterBody chapterStep
      simp only [GenState.addTrace]
      rw [horacle]
      rfl
    simp only [generate_chapters]
    rw [if_neg hch, List.range_eq_range', List.range'_succ, pyFor_cons, hbody]

/-- Witness for C6: concrete instantiations of the timeline no-raise branch
and of each raising stage. -/
theorem parse_error_asymmetry_witness :
    (timeline_layer (fun _ => none) "" "" "" ["plot"] [] ("garbage") =
      (Except.ok ([([] : Snapshot)] : List Snapshot), 1)) ∧
    (∃ m, chapter_layer (fun _ => none) "" "" "" 0 none none false ("garbage") =
      Except.error (PyErr.valueError m)) ∧
    (∃ m, chapter_layer (fun _ => some [("chapter_plot", "x")]) "" "" "" 0 none none
        false ("garbage") = Except.error (PyErr.valueError m)) ∧
    (∃ m, extract_plot_and_intent (fun _ => none) ("garbage") =
      Except.error (PyErr.valueError m)) ∧
    (∃ m, extract_plot_and_intent (fun _ => some [("section_plot", "x")]) ("garbage") =
      Except.error (PyErr.valueError m)) ∧
    (∃ m, extract_paragraph_and_intent (fun _ => none) ("garbage") =
      Except.error (PyErr.valueError m)) ∧
    (∃ m, extract_paragraph_and_intent (fun _ => some [("paragraph", "x")]) ("garbage") =
      Except.error (PyErr.valueError m)) ∧
    ((generate_chapters
        { oracleFixed with
          chapter_layer := fun _ _ _ _ _ _ _ => Except.error (PyErr.valueError ("bad")) }
        filtersOK false "u" 1
        { GenState.init Store.empty with characters := "CH" }).2 =
      some (PyErr.valueError ("bad"))) := by
  refine ⟨?_, ?_, ?_, ?_, ?_, ?_, ?_, ?_⟩
  · have h := (parse_error_asymmetry (fun _ => none) (fun _ => none) "" "" "" ["plot"]
      [] ("garbage")).1 (by simp) rfl
    simpa using h
  · exact (parse_error_asymmetry (fun _ => none) (fun _ => none) "" "" "" ["plot"]
      [] ("garbage")).2.1 0 none none false rfl
  · exact (parse_error_asymmetry (fun _ => none) (fun _ => some [("chapter_plot", "x")])
      "" "" "" ["plot"] [] ("garbage")).2.2.1 0 none none false _ rfl (Or.inr rfl)
  · exact (parse_error_asymmetry (fun _ => none) (fun _ => none) "" "" "" ["plot"]
      [] ("garbage")).2.2.2.1 rfl
  · exact (parse_error_asymmetry (fun _ => none) (fun _ => some [("section_plot", "x")])
      "" "" "" ["plot"] [] ("garbage")).2.2.2.2.1 _ rfl (Or.inr rfl)
  · exact (parse_error_asymmetry (fun _ => none) (fun _ => none) "" "" "" ["plot"]
      [] ("garbage")).2.2.2.2.2.1 rfl
  · exact (parse_error_asymmetry (fun _ => none) (fun _ => some [("paragraph", "x")])
      "" "" "" ["plot"] [] ("garbage")).2.2.2.2.2.2.1 _ rfl (Or.inr rfl)
  · exact (parse_error_asymmetry (fun _ => none) (fun _ => none) "" "" "" [] [] "").2.2.2.2.2.2.2
      { oracleFixed with
        chapter_layer := fun _ _ _ _ _ _ _ => Except.error (PyErr.valueError ("bad")) }
      filtersOK "u" 1 { GenState.init Store.empty with characters := "CH" }
      (PyErr.valueError ("bad")) (by omega) (by decide) rfl

/-! ### Claim C5 — final-chapter intent -/

theorem trace_all_generate_plot (p : Event → Bool) (o : Oracles) (r : Bool)
    (u : String) (st : GenState) (hp : p Event.plotCall = true)
    (h : st.trace.all p = true) : ((generate_plot o r u st).trace).all p = true := by
  unfold generate_plot
  rcases hm : (if r then st.store.readF Key.masterPlot else none) with _ | v <;>
    simp [hm, GenState.addTrace, List.all_append, h, hp]

theorem trace_all_generate_backstory (p : Event → Bool) (o : Oracles) (r : Bool)
    (u : String) (st : GenState) (hp1 : p Event.plotCall = true)
    (hp2 : p Event.backstoryCall = true) (h : st.trace.all p = true) :
    ((generate_backstory o r u st).trace).all p = true := by
  have h1 : ((if st.master_plot = "" then generate_plot o r u st else st).trace).all p
      = true := by
    split
    · exact trace_all_generate_plot p o r u st hp1 h
    · exact h
  simp only [generate_backstory]
  set st1 := if st.master_plot = "" then generate_plot o r u st else st with hst1
  rcases hm : (if r then st1.store.readF Key.backstory else none) with _ | v <;>
    simp [hm, GenState.addTrace, List.all_append, h1, hp2]

theorem trace_all_generate_characters (p : Event → Bool) (o : Oracles) (r : Bool)
    (u : String) (st : GenState) (hp1 : p Event.plotCall = true)
    (hp2 : p Event.backstoryCall = true) (hp3 : p Event.characterCall = true)
    (h : st.trace.all p = true) :
    ((generate_characters o r u st).trace).all p = true := by
  have h1 : ((if st.backstories = "" then generate_backstory o r u st else st).trace).all p
      = true := by
    split
    · exact trace_all_generate_backstory p o r u st hp1 hp2 h
    · exact h
  simp only [generate_characters]
  set st1 := if st.backstories = "" then generate_backstory o r u st else st with hst1
  rcases hm : (if r then st1.store.readF Key.character else none) with _ | v <;>
    simp [hm, GenState.addTrace, List.all_append, h1, hp3]

theorem trace_all_generate_timeline (p : Event → Bool) (o : Oracles) (r : Bool)
    (ch : Nat) (st : GenState) (hp : p (Event.timelineCall ch) = true)
    (h : st.trace.all p = true) :
    (((generate_timeline_for_chapter o r ch st).1.trace)).all p = true := by
  unfold generate_timeline_for_chapter
  rcases hm : (if r then st.store.readT ch else none) with _ | tl <;>
    simp only [hm, GenState.addTrace]
  · split <;> simp [List.all_append, h, hp]
  · split <;> simpa using h

theorem trace_all_chapterStep (p : Event → Bool) (o : Oracles) (r : Bool)
    (cc ch : Nat) (st : GenState)
    (hp : p (Event.chapterCall ch (ch == cc - 1)) = true)
    (h : st.trace.all p = true) :
    (((chapterStep o r cc ch st).1.1.trace)).all p = true := by
  unfold chapterStep
  rcases hm1 : (if r then st.store.readF (Key.chapterPlot ch) else none) with _ | v1 <;>
    rcases hm2 : (if r then st.store.readF (Key.chapterIntent ch) else none) with _ | v2 <;>
    simp only [hm1, hm2, GenState.addTrace]
  · split <;> simp [List.all_append, h, hp]
  · split <;> simp [List.all_append, h, hp]
  · split <;> simp [List.all_append, h, hp]
  · simpa using h

theorem trace_all_chapterBody (p : Event → Bool) (o : Oracles) (f : Filters)
    (r : Bool) (cc ch : Nat) (st : GenState)
    (hp1 : p (Event.chapterCall ch (ch == cc - 1)) = true)
    (hp2 : p (Event.timelineCall ch) = true)
    (hp3 : p (Event.bcvfCall ch) = true)
    (h : st.trace.all p = true) :
    (((chapterBody o f r cc ch st).1.trace)).all p = true := by
  unfold chapterBody
  rcases hstep : chapterStep o r cc ch st with ⟨⟨st1, cp, ci⟩, err⟩
  have h1 : st1.trace.all p = true := by
    have := trace_all_chapterStep p o r cc ch st hp1 h
    rw [hstep] at this
    exact this
  cases err with
  | some e => simp [hstep, h1]
  | none =>
      set st2 : GenState := { st1 with
        chapter_plots := st1.chapter_plots ++ [cp]
        chapter_intents := st1.chapter_intents ++ [ci] } with hst2
      have h2 : st2.trace.all p = true := h1
      rcases htl : generate_timeline_for_chapter o r ch st2 with ⟨st3, err3⟩
      have h3 : st3.trace.all p = true := by
        have := trace_all_generate_timeline p o r ch st2 hp2 h2
        rw [htl] at this
        exact this
      cases err3 with
      | some e => simp [hstep, htl, h3]
      | none =>
          simp [hstep, htl, noteValidation_trace, GenState.addTrace,
            List.all_append, h3, hp3]

theorem trace_all_generate_chapters (p : Event → Bool) (o : Oracles) (f : Filters)
    (r : Bool) (u : String) (cc : Nat) (st : GenState)
    (hp1 : p Event.plotCall = true) (hp2 : p Event.backstoryCall = true)
    (hp3 : p Event.characterCall = true)
    (hp4 : ∀ ch, ch < cc → p (Event.chapterCall ch (ch == cc - 1)) = true)
    (hp5 : ∀ ch, ch < cc → p (Event.timelineCall ch) = true)
    (hp6 : ∀ ch, ch < cc → p (Event.bcvfCall ch) = true)
    (hp7 : p Event.chCcvfCall = true)
    (h : st.trace.all p = true) :
    (((generate_chapters o f r u cc st).1.trace)).all p = true := by
  simp only [generate_chapters]
  set st1 := if st.characters = "" then generate_characters o r u st else st with hst1
  have h1 : st1.trace.all p = true := by
    rw [hst1]
    split
    · exact trace_all_generate_characters p o r u st hp1 hp2 hp3 h
    · exact h
  have hloop : ((pyFor (chapterBody o f r cc) (List.range cc) st1).1.trace).all p
      = true := by
    refine pyFor_inv (fun s => (s.trace.all p) = true) (chapterBody o f r cc)
      (List.range cc) ?_ st1 h1
    intro i hi s hs
    have hilt : i < cc := List.mem_range.mp hi
    exact trace_all_chapterBody p o f r cc i s (hp4 i hilt) (hp5 i hilt) (hp6 i hilt) hs
  rcases hloop' : pyFor (chapterBody o f r cc) (List.range cc) st1 with ⟨st2, err⟩
  have h2 : st2.trace.all p = true := by
    rw [hloop'] at hloop
    exact hloop
  cases err with
  | some e => simp [hloop', h2]
  | none =>
      simp [hloop', noteValidation_trace, GenState.addTrace, List.all_append, h2, hp7]

/-- Claim C5 (confirmed): whenever the Chapter stage is invoked with
`is_final_chapter = true` and returns, the returned intent is the designated
terminal intent string, regardless of the intent field of the generator
response; and in every `generate_chapters` run, each Chapter-stage invocation
carries an in-range chapter index with the final flag set exactly on index
`chapter_count - 1`. -/
theorem final_chapter_intent_forced :
    (∀ (jsonLoads : String → Option (List (String × String)))
      (mp bs cs : String) (ci : Nat) (pp pi : Option (List String))
      (response plot intent : String),
      chapter_layer jsonLoads mp bs cs ci pp pi true response =
        Except.ok (plot, intent) → intent = finalChapterIntent) ∧
    (∀ (o : Oracles) (f : Filters) (resume : Bool) (u : String) (cc : Nat)
      (st : GenState), st.trace.all (Event.chapterFlagOk cc) = true →
      (((generate_chapters o f resume u cc st).1.trace)).all
        (Event.chapterFlagOk cc) = true) := by
  constructor
  · intro jsonLoads mp bs cs ci pp pi response plot intent h
    unfold chapter_layer at h
    rcases hj : jsonLoads response with _ | data <;> rw [hj] at h
    · cases h
    · by_cases h1 : getField data ("chapter_plot") = "" <;> simp [h1] at h
      by_cases h2 : getField data ("chapter_intent") = "" <;> simp [h2] at h
      exact h.2.symm
  · intro o f resume u cc st h
    refine trace_all_generate_chapters (Event.chapterFlagOk cc) o f resume u cc st
      rfl rfl rfl ?_ (fun ch hch => rfl) (fun ch hch => rfl) rfl h
    intro ch hch
    simp [Event.chapterFlagOk, hch]

/-- Witness for C5: a concrete final-chapter invocation whose generator
intent field is overridden, and a concrete two-chapter run whose trace passes
the flag check. -/
theorem final_chapter_intent_forced_witness :
    ((chapter_layer (fun _ => some [("chapter_plot", "x"), ("chapter_intent", "y")])
        "" "" "" 1 none none true ("resp")) = Except.ok ("x", finalChapterIntent)) ∧
    ((((generate_chapters oracleFixed filtersOK false "u" 2
        (GenState.init Store.empty)).1.trace)).all (Event.chapterFlagOk 2) = true) := by
  constructor
  · have hy := (final_chapter_intent_forced).1
      (fun _ => some [("chapter_plot", "x"), ("chapter_intent", "y")])
      "" "" "" 1 none none ("resp") "x" finalChapterIntent rfl
    rfl
  · exact (final_chapter_intent_forced).2 oracleFixed filtersOK false "u" 2
      (GenState.init Store.empty) rfl

/-! ### Claim C2 — resume child-count discovery -/

theorem noteValidation_store (st : GenState) (v m : String) :
    (noteValidation st v m).store = st.store := by
  unfold noteValidation
  split <;> rfl

theorem noteValidation_section_plots (st : GenState) (v m : String) :
    (noteValidation st v m).section_plots = st.section_plots := by
  unfold noteValidation
  split <;> rfl

/-- A successful section iteration appends exactly one section plot to the
loop variables. -/
theorem sectionStep_count (o : Oracles) (r : Bool) (ch : Nat) (cp : String)
    (sec : Nat) (s : GenState × SecLoopVars)
    (h : (sectionStep o r ch cp sec s).2 = none) :
    ((sectionStep o r ch cp sec s).1.2.section_plots).length =
      (s.2.section_plots).length + 1 := by
  unfold sectionStep at h ⊢
  rcases hm1 : (if r then ({ s.1 with store := s.1.store.ensureSecDir ch (sec + 1) } :
      GenState).store.readF (Key.sectionPlot ch sec) else none) with _ | v1 <;>
    rcases hm2 : (if r then ({ s.1 with store := s.1.store.ensureSecDir ch (sec + 1) } :
      GenState).store.readF (Key.sectionIntent ch sec) else none) with _ | v2 <;>
    simp only [hm1, hm2] at h ⊢
  all_goals try simp [SecLoopVars.push]
  all_goals
    rcases hcall : o.section_layer _ _ _ _ _ _ _ _ _ with e | pq <;>
      simp only [hcall] at h ⊢ <;>
      simp_all [SecLoopVars.push]

/-- A section iteration never changes the accumulated per-chapter section
list of the state. -/
theorem sectionStep_section_plots (o : Oracles) (r : Bool) (ch : Nat)
    (cp : String) (sec : Nat) (s : GenState × SecLoopVars) :
    ((sectionStep o r ch cp sec s).1.1.section_plots) = s.1.section_plots := by
  unfold sectionStep
  rcases hm1 : (if r then ({ s.1 with store := s.1.store.ensureSecDir ch (sec + 1) } :
      GenState).store.readF (Key.sectionPlot ch sec) else none) with _ | v1 <;>
    rcases hm2 : (if r then ({ s.1 with store := s.1.store.ensureSecDir ch (sec + 1) } :
      GenState).store.readF (Key.sectionIntent ch sec) else none) with _ | v2 <;>
    simp only [hm1, hm2]
  all_goals
    rcases hcall : o.section_layer _ _ _ _ _ _ _ _ _ with e | pq <;>
      simp [hcall, GenState.addTrace]

/-- The number of style-filter applications recorded for section
`(ch, sec)` — one per processed paragraph of that section. -/
def styleCallCount (tr : List Event) (ch sec : Nat) : Nat :=
  (tr.filter (fun e =>
    match e with
    | Event.styleCall c s _ => decide (c = ch) && decide (s = sec)
    | _ => false)).length

theorem styleCallCount_append (tr1 tr2 : List Event) (ch sec : Nat) :
    styleCallCount (tr1 ++ tr2) ch sec =
      styleCallCount tr1 ch sec + styleCallCount tr2 ch sec := by
  simp [styleCallCount, List.filter_append]

/-- A successful paragraph iteration applies the style filter exactly once
for its section. -/
theorem paragraphStep_count (o : Oracles) (r : Bool) (ch sec : Nat) (sp : String)
    (p : Nat) (s : GenState × String × ParaLoopVars)
    (h : (paragraphStep o r ch sec sp p s).2 = none) :
    styleCallCount ((paragraphStep o r ch sec sp p s).1.1.trace) ch sec =
      styleCallCount s.1.trace ch sec + 1 := by
  rcases s with ⟨st, story, vars⟩
  unfold paragraphStep at h ⊢
  rcases hm1 : (if r then st.store.readF (Key.paragraphText ch sec p) else none)
      with _ | v1 <;>
    rcases hm2 : (if r then st.store.readF (Key.paragraphIntent ch sec p) else none)
      with _ | v2 <;>
    simp only [hm1, hm2] at h ⊢
  all_goals try
    simp [paragraphFinish, GenState.addTrace, styleCallCount_append, styleCallCount]
  all_goals
    rcases hcall : o.paragraph_layer _ _ _ _ _ _ _ with e | pq <;>
      simp only [hcall] at h ⊢ <;>
      simp_all [paragraphFinish, GenState.addTrace, styleCallCount_append, styleCallCount]

/-- Claim C2 (confirmed): on a resumed run the section loop of a chapter
performs `max(3, number of existing section directories)` iterations,
appending exactly that many section plots, and the paragraph loop of a
section performs `max(5, number of existing persisted paragraph files)`
iterations, applying the style filter exactly that many times; the
pre-existing children are therefore never truncated to the defaults. -/
theorem resume_child_count_discovery :
    (∀ (o : Oracles) (f : Filters) (ch : Nat) (st : GenState),
      (sectionChapterBody o f true ch st).2 = none →
      ∃ secs : List String,
        (sectionChapterBody o f true ch st).1.section_plots =
          st.section_plots ++ [secs] ∧
        secs.length = max 3 (st.store.discoverSections ch)) ∧
    (∀ (o : Oracles) (ch sec : Nat) (st : GenState) (story : String),
      (paragraphSectionBody o true ch sec (st, story)).2 = none →
      styleCallCount ((paragraphSectionBody o true ch sec (st, story)).1.1.trace) ch sec =
        styleCallCount st.trace ch sec +
          max 5 (st.store.discoverParagraphs ch sec)) := by
  constructor
  · intro o f ch st h
    simp only [sectionChapterBody, if_true] at h ⊢
    rcases hloop : pyFor
        (fun sec s => sectionStep o true ch (st.chapter_plots.getD ch "") sec s)
        (List.range (max 3 (st.store.discoverSections ch)))
        (st, SecLoopVars.init) with ⟨⟨st1, vars⟩, err⟩
    cases err with
    | some e =>
        simp only [hloop] at h
        cases h
    | none =>
        have hcount := pyFor_count
          (fun (s : GenState × SecLoopVars) => s.2.section_plots.length)
          (fun sec s => sectionStep o true ch (st.chapter_plots.getD ch "") sec s)
          (List.range (max 3 (st.store.discoverSections ch)))
          (fun i _ s hs => sectionStep_count o true ch _ i s hs)
          (st, SecLoopVars.init) (by rw [hloop])
        have hpres := pyFor_inv
          (fun (s : GenState × SecLoopVars) => s.1.section_plots = st.section_plots)
          (fun sec s => sectionStep o true ch (st.chapter_plots.getD ch "") sec s)
          (List.range (max 3 (st.store.discoverSections ch)))
          (fun i _ s hs => by
            show (sectionStep o true ch (st.chapter_plots.getD ch "") i s).1.1.section_plots
              = st.section_plots
            rw [sectionStep_section_plots]
            exact hs)
          (st, SecLoopVars.init) rfl
        rw [hloop] at hcount hpres
        simp only [SecLoopVars.init, List.length_nil, List.length_range] at hcount
        refine ⟨vars.section_plots, ?_, by simpa using hcount⟩
        simp only [hloop]
        simp [noteValidation_section_plots, GenState.addTrace]
        simpa using hpres
  · intro o ch sec st story h
    simp only [paragraphSectionBody, if_true] at h ⊢
    rcases hloop : pyFor
        (fun p s => paragraphStep o true ch sec
          ((st.section_plots.getD ch []).getD sec "") p s)
        (List.range (max 5 (st.store.discoverParagraphs ch sec)))
        (st, story ++ ("\nSection " ++ toString (sec + 1) ++ "\n"), ParaLoopVars.init)
        with ⟨⟨st1, story1, vars⟩, err⟩
    cases err with
    | some e =>
        simp only [hloop] at h
        cases h
    | none =>
        have hcount := pyFor_count
          (fun (s : GenState × String × ParaLoopVars) =>
            styleCallCount s.1.trace ch sec)
          (fun p s => paragraphStep o true ch sec
            ((st.section_plots.getD ch []).getD sec "") p s)
          (List.range (max 5 (st.store.discoverParagraphs ch sec)))
          (fun i _ s hs => paragraphStep_count o true ch sec _ i s hs)
          (st, story ++ ("\nSection " ++ toString (sec + 1) ++ "\n"), ParaLoopVars.init)
          (by rw [hloop])
        rw [hloop] at hcount
        simp only [List.length_range] at hcount
        simp only [hloop]
        simpa using hcount

/-- Witness for C2: with four pre-existing section directories under a
chapter, a resumed run processes exactly 4 sections (never truncated to the
default 3); with seven pre-existing paragraph files in a section, it
processes exactly 7 paragraphs. -/
theorem resume_child_count_discovery_witness :
    ((∃ secs : List String,
        (sectionChapterBody oracleFixed filtersOK true 0
          (GenState.init storeFourSecDirs)).1.section_plots =
          (GenState.init storeFourSecDirs).section_plots ++ [secs] ∧
        secs.length = max 3 (storeFourSecDirs.discoverSections 0)) ∧
      max 3 (storeFourSecDirs.discoverSections 0) = 4) ∧
    ((styleCallCount
        ((paragraphSectionBody oracleFixed true 0 0 (stSevenParas, "")).1.1.trace) 0 0 =
        styleCallCount stSevenParas.trace 0 0 +
          max 5 (storeSevenParas.discoverParagraphs 0 0)) ∧
      max 5 (storeSevenParas.discoverParagraphs 0 0) = 7) := by
  refine ⟨⟨?_, by decide⟩, ?_, by decide⟩
  · exact (resume_child_count_discovery).1 oracleFixed filtersOK 0
      (GenState.init storeFourSecDirs) rfl
  · exact (resume_child_count_discovery).2 oracleFixed 0 0 stSevenParas "" rfl

/-! ### Claim C1 — cache-or-compute control flow -/

theorem traceHasChapterCall_append (tr1 tr2 : List Event) (i : Nat) :
    traceHasChapterCall (tr1 ++ tr2) i =
      (traceHasChapterCall tr1 i || traceHasChapterCall tr2 i) := by
  simp [traceHasChapterCall, List.any_append]

/-- Appending a non-Chapter-call event (or a Chapter call for another index)
preserves the absence of a Chapter call for `i`. -/
theorem traceHasChapterCall_snoc (tr : List Event) (i : Nat) (e : Event)
    (he : (match e with
      | Event.chapterCall c _ => decide (c = i)
      | _ => false) = false)
    (h : traceHasChapterCall tr i = false) :
    traceHasChapterCall (tr ++ [e]) i = false := by
  rw [traceHasChapterCall_append, h]
  simp [traceHasChapterCall, he]

theorem chapterIntact_generate_plot (i : Nat) (p q : String) (o : Oracles)
    (r : Bool) (u : String) (st : GenState)
    (h : chapterArtifactsIntact i p q st) :
    chapterArtifactsIntact i p q (generate_plot o r u st) := by
  obtain ⟨h1, h2, h3⟩ := h
  unfold generate_plot
  rcases hm : (if r then st.store.readF Key.masterPlot else none) with _ | v
  · refine ⟨?_, ?_, ?_⟩
    · rw [readF_writeF_ne _ _ _ _ (by simp)]; exact h1
    · rw [readF_writeF_ne _ _ _ _ (by simp)]; exact h2
    · exact traceHasChapterCall_snoc _ _ _ rfl h3
  · exact ⟨h1, h2, h3⟩

theorem chapterIntact_generate_backstory (i : Nat) (p q : String) (o : Oracles)
    (r : Bool) (u : String) (st : GenState)
    (h : chapterArtifactsIntact i p q st) :
    chapterArtifactsIntact i p q (generate_backstory o r u st) := by
  simp only [generate_backstory]
  set st1 := if st.master_plot = "" then generate_plot o r u st else st with hst1
  have h0 : chapterArtifactsIntact i p q st1 := by
    rw [hst1]
    split
    · exact chapterIntact_generate_plot i p q o r u st h
    · exact h
  obtain ⟨h1, h2, h3⟩ := h0
  rcases hm : (if r then st1.store.readF Key.backstory else none) with _ | v
  · refine ⟨?_, ?_, ?_⟩
    · rw [readF_writeF_ne _ _ _ _ (by simp)]; exact h1
    · rw [readF_writeF_ne _ _ _ _ (by simp)]; exact h2
    · exact traceHasChapterCall_snoc _ _ _ rfl h3
  · exact ⟨h1, h2, h3⟩

theorem chapterIntact_generate_characters (i : Nat) (p q : String) (o : Oracles)
    (r : Bool) (u : String) (st : GenState)
    (h : chapterArtifactsIntact i p q st) :
    chapterArtifactsIntact i p q (generate_characters o r u st) := by
  simp only [generate_characters]
  set st1 := if st.backstories = "" then generate_backstory o r u st else st with hst1
  have h0 : chapterArtifactsIntact i p q st1 := by
    rw [hst1]
    split
    · exact chapterIntact_generate_backstory i p q o r u st h
    · exact h
  obtain ⟨h1, h2, h3⟩ := h0
  rcases hm : (if r then st1.store.readF Key.character else none) with _ | v
  · refine ⟨?_, ?_, ?_⟩
    · rw [readF_writeF_ne _ _ _ _ (by simp)]; exact h1
    · rw [readF_writeF_ne _ _ _ _ (by simp)]; exact h2
    · exact traceHasChapterCall_snoc _ _ _ rfl h3
  · exact ⟨h1, h2, h3⟩

theorem chapterIntact_generate_timeline (i : Nat) (p q : String) (o : Oracles)
    (r : Bool) (ch : Nat) (st : GenState)
    (h : chapterArtifactsIntact i p q st) :
    chapterArtifactsIntact i p q (generate_timeline_for_chapter o r ch st).1 := by
  obtain ⟨h1, h2, h3⟩ := h
  unfold generate_timeline_for_chapter
  rcases hm : (if r then st.store.readT ch else none) with _ | tl <;>
    simp only [hm, GenState.addTrace]
  · split
    · exact ⟨h1, h2, traceHasChapterCall_snoc _ _ _ rfl h3⟩
    · refine ⟨?_, ?_, traceHasChapterCall_snoc _ _ _ rfl h3⟩ <;>
        simp only [readF_writeT] <;> assumption
  · split <;> exact ⟨h1, h2, h3⟩

theorem chapterIntact_chapterStep (i : Nat) (p q : String) (o : Oracles)
    (cc j : Nat) (st : GenState) (h : chapterArtifactsIntact i p q st) :
    chapterArtifactsIntact i p q (chapterStep o true cc j st).1.1 := by
  obtain ⟨h1, h2, h3⟩ := h
  unfold chapterStep
  rcases hm1 : (if true then st.store.readF (Key.chapterPlot j) else none) with _ | v1 <;>
    rcases hm2 : (if true then st.store.readF (Key.chapterIntent j) else none) with _ | v2 <;>
    simp only [hm1, hm2, GenState.addTrace]
  case some.some => exact ⟨h1, h2, h3⟩
  case none.none =>
    have hji : j ≠ i := by
      intro he
      subst he
      rw [h1] at hm1
      simp at hm1
    split
    · exact ⟨h1, h2, traceHasChapterCall_snoc _ _ _ (by simp [hji]) h3⟩
    · refine ⟨?_, ?_, traceHasChapterCall_snoc _ _ _ (by simp [hji]) h3⟩
      · rw [readF_writeF_ne _ _ _ _ (by simp),
          readF_writeF_ne _ _ _ _ (by
            intro hc
            injection hc with hc'
            exact hji hc'.symm)]
        exact h1
      · rw [readF_writeF_ne _ _ _ _ (by
            intro hc
            injection hc with hc'
            exact hji hc'.symm),
          readF_writeF_ne _ _ _ _ (by simp)]
        exact h2
  case none.some =>
    have hji : j ≠ i := by
      intro he
      subst he
      rw [h1] at hm1
      simp at hm1
    split
    · exact ⟨h1, h2, traceHasChapterCall_snoc _ _ _ (by simp [hji]) h3⟩
    · refine ⟨?_, ?_, traceHasChapterCall_snoc _ _ _ (by simp [hji]) h3⟩
      · rw [readF_writeF_ne _ _ _ _ (by simp),
          readF_writeF_ne _ _ _ _ (by
            intro hc
            injection hc with hc'
            exact hji hc'.symm)]
        exact h1
      · rw [readF_writeF_ne _ _ _ _ (by
            intro hc
            injection hc with hc'
            exact hji hc'.symm),
          readF_writeF_ne _ _ _ _ (by simp)]
        exact h2
  case some.none =>
    have hji : j ≠ i := by
      intro he
      subst he
      rw [h2] at hm2
      simp at hm2
    split
    · exact ⟨h1, h2, traceHasChapterCall_snoc _ _ _ (by simp [hji]) h3⟩
    · refine ⟨?_, ?_, traceHasChapterCall_snoc _ _ _ (by simp [hji]) h3⟩
      · rw [readF_writeF_ne _ _ _ _ (by simp),
          readF_writeF_ne _ _ _ _ (by
            intro hc
            injection hc with hc'
            exact hji hc'.symm)]
        exact h1
      · rw [readF_writeF_ne _ _ _ _ (by
            intro hc
            injection hc with hc'
            exact hji hc'.symm),
          readF_writeF_ne _ _ _ _ (by simp)]
        exact h2

theorem chapterIntact_chapterBody (i : Nat) (p q : String) (o : Oracles)
    (f : Filters) (cc j : Nat) (st : GenState)
    (h : chapterArtifactsIntact i p q st) :
    chapterArtifactsIntact i p q (chapterBody o f true cc j st).1 := by
  rcases hstep : chapterStep o true cc j st with ⟨⟨st1, cp, ci⟩, err⟩
  have h1 : chapterArtifactsIntact i p q st1 := by
    have hx := chapterIntact_chapterStep i p q o cc j st h
    rw [hstep] at hx
    exact hx
  cases err with
  | some e =>
      unfold chapterBody
      simp only [hstep]
      exact h1
  | none =>
      have h2 : chapterArtifactsIntact i p q
          { st1 with
            chapter_plots := st1.chapter_plots ++ [cp]
            chapter_intents := st1.chapter_intents ++ [ci] } := h1
      rcases htl : generate_timeline_for_chapter o true j
          { st1 with
            chapter_plots := st1.chapter_plots ++ [cp]
            chapter_intents := st1.chapter_intents ++ [ci] } with ⟨st2, err2⟩
      have h3 : chapterArtifactsIntact i p q st2 := by
        have hx := chapterIntact_generate_timeline i p q o true j _ h2
        rw [htl] at hx
        exact hx
      obtain ⟨h3a, h3b, h3c⟩ := h3
      cases err2 with
      | some e =>
          unfold chapterBody
          simp only [hstep, htl]
          exact ⟨h3a, h3b, h3c⟩
      | none =>
          unfold chapterBody
          simp only [hstep, htl]
          refine ⟨?_, ?_, ?_⟩
          · simp only [noteValidation_store, GenState.addTrace]
            exact h3a
          · simp only [noteValidation_store, GenState.addTrace]
            exact h3b
          · simp only [noteValidation_trace, GenState.addTrace]
            exact traceHasChapterCall_snoc _ _ (Event.bcvfCall j) rfl h3c

theorem chapterIntact_generate_chapters (i : Nat) (p q : String) (o : Oracles)
    (f : Filters) (u : String) (cc : Nat) (st : GenState)
    (h : chapterArtifactsIntact i p q st) :
    chapterArtifactsIntact i p q (generate_chapters o f true u cc st).1 := by
  simp only [generate_chapters]
  set st1 := if st.characters = "" then generate_characters o true u st else st with hst1
  have h1 : chapterArtifactsIntact i p q st1 := by
    rw [hst1]
    split
    · exact chapterIntact_generate_characters i p q o true u st h
    · exact h
  have hloop := pyFor_inv (chapterArtifactsIntact i p q) (chapterBody o f true cc)
    (List.range cc) (fun j _ s hs => chapterIntact_chapterBody i p q o f cc j s hs)
    st1 h1
  rcases hloop' : pyFor (chapterBody o f true cc) (List.range cc) st1 with ⟨st2, err⟩
  rw [hloop'] at hloop
  obtain ⟨ha, hb, hc⟩ := hloop
  cases err with
  | some e =>
      simp only [hloop']
      exact ⟨ha, hb, hc⟩
  | none =>
      simp only [hloop']
      refine ⟨?_, ?_, ?_⟩
      · simp only [noteValidation_store, GenState.addTrace]
        exact ha
      · simp only [noteValidation_store, GenState.addTrace]
        exact hb
      · simp only [noteValidation_trace, GenState.addTrace]
        exact traceHasChapterCall_snoc _ _ Event.chCcvfCall rfl hc

/-- Claim C1 (confirmed): the cache-or-compute contract of the orchestrator.
For each artifact — master plot, backstory, characters, chapter plot/intent,
chapter timeline, section plot/intent, paragraph text/intent — when resume is
requested and the persisted artifact exists, it is reloaded and the stage
function is not invoked (no stage event is recorded and the artifact is not
rewritten); when the artifact is absent or resume is not requested, the stage
function is invoked and its result persisted.  In particular, a resumed
`generate_chapters` run never invokes the Chapter stage for any index whose
plot and intent artifacts already exist, regardless of what the stage would
produce. -/
theorem cache_or_compute (o : Oracles) (f : Filters) (u : String) (st : GenState) :
    (∀ v, st.store.readF Key.masterPlot = some v →
      generate_plot o true u st = { st with master_plot := v }) ∧
    (∀ r, (r = false ∨ st.store.readF Key.masterPlot = none) →
      generate_plot o r u st =
        { st.addTrace Event.plotCall with
          master_plot := o.plot_layer u
          store := st.store.writeF Key.masterPlot (o.plot_layer u) }) ∧
    (st.master_plot ≠ "" →
      (∀ v, st.store.readF Key.backstory = some v →
        generate_backstory o true u st = { st with backstories := v }) ∧
      (∀ r, (r = false ∨ st.store.readF Key.backstory = none) →
        generate_backstory o r u st =
          { st.addTrace Event.backstoryCall with
            backstories := o.backstory_layer st.master_plot
            store := st.store.writeF Key.backstory (o.backstory_layer st.master_plot) })) ∧
    (st.backstories ≠ "" →
      (∀ v, st.store.readF Key.character = some v →
        generate_characters o true u st = { st with characters := v }) ∧
      (∀ r, (r = false ∨ st.store.readF Key.character = none) →
        generate_characters o r u st =
          { st.addTrace Event.characterCall with
            characters := o.character_layer st.master_plot st.backstories
            store := st.store.writeF Key.character
              (o.character_layer st.master_plot st.backstories) })) ∧
    (∀ i p q cc, st.store.readF (Key.chapterPlot i) = some p →
      st.store.readF (Key.chapterIntent i) = some q →
      traceHasChapterCall st.trace i = false →
      traceHasChapterCall ((generate_chapters o f true u cc st).1.trace) i = false) ∧
    (∀ cc i v1 v2, st.store.readF (Key.chapterPlot i) = some v1 →
      st.store.readF (Key.chapterIntent i) = some v2 →
      chapterStep o true cc i st = ((st, v1, v2), none)) ∧
    (∀ r cc i,
      (r = false ∨ st.store.readF (Key.chapterPlot i) = none ∨
        st.store.readF (Key.chapterIntent i) = none) →
      ∀ cp ci, o.chapter_layer st.master_plot st.backstories st.characters i
        (if st.chapter_plots.isEmpty then none else some st.chapter_plots)
        (if st.chapter_intents.isEmpty then none else some st.chapter_intents)
        (i == cc - 1) = Except.ok (cp, ci) →
      chapterStep o r cc i st =
        (({ st.addTrace (Event.chapterCall i (i == cc - 1)) with
            store := (st.store.writeF (Key.chapterPlot i) cp).writeF
              (Key.chapterIntent i) ci }, cp, ci), none)) ∧
    (∀ ch tl, st.store.readT ch = some tl →
      generate_timeline_for_chapter o true ch st =
        (if st.all_characters_timeline.length ≤ ch then
          { st with all_characters_timeline := st.all_characters_timeline ++ [tl] }
        else
          { st with all_characters_timeline := st.all_characters_timeline.set ch tl },
         none)) ∧
    (∀ r ch, (r = false ∨ st.store.readT ch = none) →
      ∀ upd, o.timeline_layer st.master_plot st.backstories st.characters
        st.chapter_plots st.all_characters_timeline = Except.ok upd →
      generate_timeline_for_chapter o r ch st =
        ({ st.addTrace (Event.timelineCall ch) with
           all_characters_timeline := upd
           store := st.store.writeT ch (upd.getD ch ([] : Snapshot)) }, none)) ∧
    (∀ ch cp sec vars v1 v2,
      st.store.readF (Key.sectionPlot ch sec) = some v1 →
      st.store.readF (Key.sectionIntent ch sec) = some v2 →
      sectionStep o true ch cp sec (st, vars) =
        (({ st with store := st.store.ensureSecDir ch (sec + 1) },
          vars.push v1 v2), none)) ∧
    (∀ r ch cp sec vars,
      (r = false ∨ st.store.readF (Key.sectionPlot ch sec) = none ∨
        st.store.readF (Key.sectionIntent ch sec) = none) →
      ∀ sp si, o.section_layer st.master_plot st.backstories st.characters
        st.all_characters_timeline cp vars.prev_sections vars.prev_section_intent
        (if ch > 0 then st.section_plots.take ch else [])
        (if ch + 1 < st.chapter_plots.length then st.chapter_plots.drop (ch + 1) else []) =
        Except.ok (sp, si) →
      sectionStep o r ch cp sec (st, vars) =
        (({ st.addTrace (Event.sectionCall ch sec) with
            store := ((st.store.ensureSecDir ch (sec + 1)).writeF
              (Key.sectionPlot ch sec) sp).writeF (Key.sectionIntent ch sec) si },
          vars.push sp si), none)) ∧
    (∀ ch sec sp p story vars v1 v2,
      st.store.readF (Key.paragraphText ch sec p) = some v1 →
      st.store.readF (Key.paragraphIntent ch sec p) = some v2 →
      paragraphStep o true ch sec sp p (st, story, vars) =
        (({ st.addTrace (Event.styleCall ch sec p) with
            store := st.store.writeF (Key.paragraphStyled ch sec p)
              (o.style_filter v1) },
          story ++ ("\n" ++ o.style_filter v1),
          ⟨vars.prev_paragraphs ++ [v1], some v2⟩), none)) ∧
    (∀ r ch sec sp p story vars,
      (r = false ∨ st.store.readF (Key.paragraphText ch sec p) = none ∨
        st.store.readF (Key.paragraphIntent ch sec p) = none) →
      ∀ pt pintent, o.paragraph_layer st.master_plot st.backstories st.characters
        st.all_characters_timeline sp vars.prev_paragraphs
        vars.prev_paragraph_intent = Except.ok (pt, pintent) →
      paragraphStep o r ch sec sp p (st, story, vars) =
        (({ (st.addTrace (Event.paragraphCall ch sec p)).addTrace
              (Event.styleCall ch sec p) with
            store := (((st.store.writeF (Key.paragraphText ch sec p) pt).writeF
              (Key.paragraphIntent ch sec p) pintent).writeF
              (Key.paragraphStyled ch sec p) (o.style_filter pt)) },
          story ++ ("\n" ++ o.style_filter pt),
          ⟨vars.prev_paragraphs ++ [pt], some pintent⟩), none)) := by
  refine ⟨?_, ?_, ?_, ?_, ?_, ?_, ?_, ?_, ?_, ?_, ?_, ?_, ?_⟩
  · intro v hv
    simp [generate_plot, hv]
  · rintro r (rfl | hmiss)
    · rfl
    · cases r <;> simp [generate_plot, hmiss, GenState.addTrace]
  · intro hmp
    constructor
    · intro v hv
      simp [generate_backstory, if_neg hmp, hv]
    · rintro r (rfl | hmiss)
      · simp [generate_backstory, if_neg hmp]
      · cases r <;> simp [generate_backstory, if_neg hmp, hmiss, GenState.addTrace]
  · intro hbs
    constructor
    · intro v hv
      simp [generate_characters, if_neg hbs, hv]
    · rintro r (rfl | hmiss)
      · simp [generate_characters, if_neg hbs]
      · cases r <;> simp [generate_characters, if_neg hbs, hmiss, GenState.addTrace]
  · intro i p q cc h1 h2 h3
    exact (chapterIntact_generate_chapters i p q o f u cc st ⟨h1, h2, h3⟩).2.2
  · intro cc i v1 v2 h1 h2
    simp [chapterStep, h1, h2]
  · rintro r cc i hr cp ci hcall
    have hr' : (if r then st.store.readF (Key.chapterPlot i) else none) = none ∨
        (if r then st.store.readF (Key.chapterIntent i) else none) = none := by
      rcases hr with rfl | h | h
      · exact Or.inl rfl
      · cases r
        · exact Or.inl rfl
        · exact Or.inl (by simpa using h)
      · cases r
        · exact Or.inl rfl
        · exact Or.inr (by simpa using h)
    unfold chapterStep
    rcases hr' with h' | h'
    · rw [h']
      dsimp only [GenState.addTrace]
      rw [hcall]
    · rw [h']
      rcases hp : (if r then st.store.readF (Key.chapterPlot i) else none) with _ | w <;>
        · dsimp only [GenState.addTrace]
          rw [hcall]
  · intro ch tl htl
    simp only [generate_timeline_for_chapter, htl, if_true]
    split <;> rfl
  · rintro r ch hr upd hcall
    have hr' : (if r then st.store.readT ch else none) = none := by
      rcases hr with rfl | h
      · rfl
      · cases r
        · rfl
        · simpa using h
    unfold generate_timeline_for_chapter
    rw [hr']
    dsimp only [GenState.addTrace]
    rw [hcall]
  · intro ch cp sec vars v1 v2 h1 h2
    unfold sectionStep
    dsimp only
    simp only [readF_ensureSecDir, h1, h2]
    simp
  · rintro r ch cp sec vars hr sp si hcall
    have hr' : (if r then (st.store.ensureSecDir ch (sec + 1)).readF
          (Key.sectionPlot ch sec) else none) = none ∨
        (if r then (st.store.ensureSecDir ch (sec + 1)).readF
          (Key.sectionIntent ch sec) else none) = none := by
      rcases hr with rfl | h | h
      · exact Or.inl rfl
      · cases r
        · exact Or.inl rfl
        · exact Or.inl (by simpa [readF_ensureSecDir] using h)
      · cases r
        · exact Or.inl rfl
        · exact Or.inr (by simpa [readF_ensureSecDir] using h)
    unfold sectionStep
    dsimp only [GenState.addTrace]
    rcases hr' with h' | h'
    · simp only [h', hcall]
    · rcases hp : (if r then (st.store.ensureSecDir ch (sec + 1)).readF
          (Key.sectionPlot ch sec) else none) with _ | w <;>
        simp only [hp, h', hcall]
  · intro ch sec sp p story vars v1 v2 h1 h2
    unfold paragraphStep
    simp only [h1, h2]
    simp [paragraphFinish, GenState.addTrace]
  · rintro r ch sec sp p story vars hr pt pintent hcall
    have hr' : (if r then st.store.readF (Key.paragraphText ch sec p) else none) = none ∨
        (if r then st.store.readF (Key.paragraphIntent ch sec p) else none) = none := by
      rcases hr with rfl | h | h
      · exact Or.inl rfl
      · cases r
        · exact Or.inl rfl
        · exact Or.inl (by simpa using h)
      · cases r
        · exact Or.inl rfl
        · exact Or.inr (by simpa using h)
    unfold paragraphStep
    dsimp only [GenState.addTrace]
    rcases hr' with h' | h'
    · simp only [h', hcall]
      dsimp only [paragraphFinish, GenState.addTrace]
    · rcases hp : (if r then st.store.readF (Key.paragraphText ch sec p) else none)
          with _ | w <;>
        · simp only [hp, h', hcall]
          dsimp only [paragraphFinish, GenState.addTrace]

/-- Witness for C1: concrete cache-hit and cache-miss instantiations of
every conjunct of the cache-or-compute contract. -/
theorem cache_or_compute_witness :
    (generate_plot oracleFixed true "u" stWitAll = { stWitAll with master_plot := "MPC" }) ∧
    (generate_plot oracleFixed false "u" stWitMiss =
      { stWitMiss.addTrace Event.plotCall with
        master_plot := oracleFixed.plot_layer "u"
        store := stWitMiss.store.writeF Key.masterPlot (oracleFixed.plot_layer "u") }) ∧
    (generate_backstory oracleFixed true "u" stWitAll = { stWitAll with backstories := "BSC" }) ∧
    (generate_backstory oracleFixed false "u" stWitMiss =
      { stWitMiss.addTrace Event.backstoryCall with
        backstories := oracleFixed.backstory_layer stWitMiss.master_plot
        store := stWitMiss.store.writeF Key.backstory
          (oracleFixed.backstory_layer stWitMiss.master_plot) }) ∧
    (generate_characters oracleFixed true "u" stWitAll = { stWitAll with characters := "CHC" }) ∧
    (generate_characters oracleFixed false "u" stWitMiss =
      { stWitMiss.addTrace Event.characterCall with
        characters := oracleFixed.character_layer stWitMiss.master_plot stWitMiss.backstories
        store := stWitMiss.store.writeF Key.character
          (oracleFixed.character_layer stWitMiss.master_plot stWitMiss.backstories) }) ∧
    (traceHasChapterCall
      ((generate_chapters oracleFixed filtersOK true "u" 1 stWitAll).1.trace) 0 = false) ∧
    (chapterStep oracleFixed true 1 0 stWitAll = ((stWitAll, "CP0c", "CI0c"), none)) ∧
    (chapterStep oracleFixed false 1 0 stWitMiss =
      (({ stWitMiss.addTrace (Event.chapterCall 0 (0 == 1 - 1)) with
          store := (stWitMiss.store.writeF (Key.chapterPlot 0) "CP0").writeF
            (Key.chapterIntent 0) "FIN" }, "CP0", "FIN"), none)) ∧
    (generate_timeline_for_chapter oracleFixed true 0 stWitAll =
      (if stWitAll.all_characters_timeline.length ≤ 0 then
        { stWitAll with all_characters_timeline := stWitAll.all_characters_timeline ++ [snapAlice] }
      else
        { stWitAll with all_characters_timeline := stWitAll.all_characters_timeline.set 0 snapAlice },
       none)) ∧
    (generate_timeline_for_chapter oracleFixed false 0 stWitMiss =
      ({ stWitMiss.addTrace (Event.timelineCall 0) with
         all_characters_timeline := [([] : Snapshot)]
         store := stWitMiss.store.writeT 0
           (([([] : Snapshot)] : List Snapshot).getD 0 ([] : Snapshot)) }, none)) ∧
    (sectionStep oracleFixed true 0 "cp" 0 (stWitAll, SecLoopVars.init) =
      (({ stWitAll with store := stWitAll.store.ensureSecDir 0 1 },
        SecLoopVars.init.push "SP00c" "SI00c"), none)) ∧
    (sectionStep oracleFixed false 0 "cp" 0 (stWitMiss, SecLoopVars.init) =
      (({ stWitMiss.addTrace (Event.sectionCall 0 0) with
          store := ((stWitMiss.store.ensureSecDir 0 1).writeF
            (Key.sectionPlot 0 0) "SP0").writeF (Key.sectionIntent 0 0) "SI0" },
        SecLoopVars.init.push "SP0" "SI0"), none)) ∧
    (paragraphStep oracleFixed true 0 0 "sp" 0 (stWitAll, "", ParaLoopVars.init) =
      (({ stWitAll.addTrace (Event.styleCall 0 0 0) with
          store := stWitAll.store.writeF (Key.paragraphStyled 0 0 0)
            (oracleFixed.style_filter "PT000c") },
        "" ++ ("\n" ++ oracleFixed.style_filter "PT000c"),
        ⟨ParaLoopVars.init.prev_paragraphs ++ ["PT000c"], some "PI000c"⟩), none)) ∧
    (paragraphStep oracleFixed false 0 0 "sp" 0 (stWitMiss, "", ParaLoopVars.init) =
      (({ (stWitMiss.addTrace (Event.paragraphCall 0 0 0)).addTrace
            (Event.styleCall 0 0 0) with
          store := (((stWitMiss.store.writeF (Key.paragraphText 0 0 0) "P0").writeF
            (Key.paragraphIntent 0 0 0) "PI").writeF
            (Key.paragraphStyled 0 0 0) (oracleFixed.style_filter "P0")) },
        "" ++ ("\n" ++ oracleFixed.style_filter "P0"),
        ⟨ParaLoopVars.init.prev_paragraphs ++ ["P0"], some "PI"⟩), none)) := by
  have hc := cache_or_compute oracleFixed filtersOK "u"
  refine ⟨?_, ?_, ?_, ?_, ?_, ?_, ?_, ?_, ?_, ?_, ?_, ?_, ?_, ?_, ?_⟩
  · exact (hc stWitAll).1 "MPC" rfl
  · exact (hc stWitMiss).2.1 false (Or.inl rfl)
  · exact ((hc stWitAll).2.2.1 (by decide)).1 "BSC" rfl
  · exact ((hc stWitMiss).2.2.1 (by decide)).2 false (Or.inl rfl)
  · exact ((hc stWitAll).2.2.2.1 (by decide)).1 "CHC" rfl
  · exact ((hc stWitMiss).2.2.2.1 (by decide)).2 false (Or.inl rfl)
  · exact (hc stWitAll).2.2.2.2.1 0 "CP0c" "CI0c" 1 rfl rfl rfl
  · exact (hc stWitAll).2.2.2.2.2.1 1 0 "CP0c" "CI0c" rfl rfl
  · exact (hc stWitMiss).2.2.2.2.2.2.1 false 1 0 (Or.inl rfl) "CP0" "FIN" rfl
  · exact (hc stWitAll).2.2.2.2.2.2.2.1 0 snapAlice rfl
  · exact (hc stWitMiss).2.2.2.2.2.2.2.2.1 false 0 (Or.inl rfl) [([] : Snapshot)] rfl
  · exact (hc stWitAll).2.2.2.2.2.2.2.2.2.1 0 "cp" 0 SecLoopVars.init "SP00c" "SI00c" rfl rfl
  · exact (hc stWitMiss).2.2.2.2.2.2.2.2.2.2.1 false 0 "cp" 0 SecLoopVars.init
      (Or.inl rfl) "SP0" "SI0" rfl
  · exact (hc stWitAll).2.2.2.2.2.2.2.2.2.2.2.1 0 0 "sp" 0 "" ParaLoopVars.init
      "PT000c" "PI000c" rfl rfl
  · exact (hc stWitMiss).2.2.2.2.2.2.2.2.2.2.2.2 false 0 0 "sp" 0 "" ParaLoopVars.init
      (Or.inl rfl) "P0" "PI" rfl

/-! ### Claim C3 — validation noninterference -/

/-- Core equality of two states yields a warnings-only decomposition. -/
theorem core_eq_exists {st1 st2 : GenState} (h : st1.core = st2.core) :
    ∃ w, st2 = { st1 with warnings := w } := by
  refine ⟨st2.warnings, ?_⟩
  cases st1
  cases st2
  simp [GenState.core, GenState.mk.injEq] at h
  simp_all [GenState.mk.injEq]

/-- A loop whose body commutes with a state renaming also commutes with
it. -/
theorem pyFor_map {σ : Type} (φ : σ → σ) (body : Nat → σ → σ × Option PyErr)
    (l : List Nat) (hb : ∀ i ∈ l, ∀ s, body i (φ s) = (φ (body i s).1, (body i s).2)) :
    ∀ s, pyFor body l (φ s) = (φ (pyFor body l s).1, (pyFor body l s).2) := by
  induction l with
  | nil => intro s; simp [pyFor]
  | cons i rest ih =>
      intro s
      rcases hbody : body i s with ⟨s', err⟩
      have hstep := hb i (List.mem_cons_self i rest) s
      rw [hbody] at hstep
      cases err with
      | none =>
          simp only [pyFor, hbody, hstep]
          exact ih (fun j hj => hb j (List.mem_cons_of_mem _ hj)) s'
      | some e => simp [pyFor, hbody, hstep]

theorem setW_core (w : List String) (st : GenState) : (setW w st).core = st.core := by
  simp [setW, GenState.core]

theorem warn_generate_plot (o : Oracles) (r : Bool) (u : String) (st : GenState)
    (w : List String) :
    generate_plot o r u (setW w st) = setW w (generate_plot o r u st) := by
  unfold generate_plot setW
  rcases hm : (if r then st.store.readF Key.masterPlot else none) with _ | v <;>
    simp [hm, GenState.addTrace]

theorem warn_generate_backstory (o : Oracles) (r : Bool) (u : String) (st : GenState)
    (w : List String) :
    generate_backstory o r u (setW w st) = setW w (generate_backstory o r u st) := by
  simp only [generate_backstory]
  have hchain : (if (setW w st).master_plot = "" then generate_plot o r u (setW w st)
      else setW w st) =
      setW w (if st.master_plot = "" then generate_plot o r u st else st) := by
    by_cases hmp : st.master_plot = "" <;>
      simp [setW, hmp, warn_generate_plot o r u st w, GenState.addTrace] <;>
      simpa [setW] using warn_generate_plot o r u st w
  rw [hchain]
  set st1 := if st.master_plot = "" then generate_plot o r u st else st with hst1
  rcases hm : (if r then st1.store.readF Key.backstory else none) with _ | v <;>
    simp [setW, hm, GenState.addTrace]

theorem warn_generate_characters (o : Oracles) (r : Bool) (u : String) (st : GenState)
    (w : List String) :
    generate_characters o r u (setW w st) = setW w (generate_characters o r u st) := by
  simp only [generate_characters]
  have hchain : (if (setW w st).backstories = "" then generate_backstory o r u (setW w st)
      else setW w st) =
      setW w (if st.backstories = "" then generate_backstory o r u st else st) := by
    have hcond : (setW w st).backstories = st.backstories := rfl
    simp only [hcond]
    by_cases hbs : st.backstories = ""
    · rw [if_pos hbs, if_pos hbs]
      exact warn_generate_backstory o r u st w
    · rw [if_neg hbs, if_neg hbs]
  rw [hchain]
  set st1 := if st.backstories = "" then generate_backstory o r u st else st with hst1
  rcases hm : (if r then st1.store.readF Key.character else none) with _ | v <;>
    simp [setW, hm, GenState.addTrace]

theorem warn_generate_timeline (o : Oracles) (r : Bool) (ch : Nat) (st : GenState)
    (w : List String) :
    generate_timeline_for_chapter o r ch (setW w st) =
      (setW w (generate_timeline_for_chapter o r ch st).1,
       (generate_timeline_for_chapter o r ch st).2) := by
  unfold generate_timeline_for_chapter
  rcases hm : (if r then st.store.readT ch else none) with _ | tl <;>
    simp only [setW, hm, GenState.addTrace]
  · rcases hcall : o.timeline_layer st.master_plot st.backstories st.characters
        st.chapter_plots st.all_characters_timeline with e | upd <;>
      simp [hcall]
  · split <;> simp

theorem warn_chapterStep (o : Oracles) (r : Bool) (cc i : Nat) (st : GenState)
    (w : List String) :
    chapterStep o r cc i (setW w st) =
      ((setW w (chapterStep o r cc i st).1.1, (chapterStep o r cc i st).1.2.1,
        (chapterStep o r cc i st).1.2.2), (chapterStep o r cc i st).2) := by
  unfold chapterStep
  rcases hm1 : (if r then st.store.readF (Key.chapterPlot i) else none) with _ | v1 <;>
    rcases hm2 : (if r then st.store.readF (Key.chapterIntent i) else none) with _ | v2 <;>
    simp only [setW, hm1, hm2, GenState.addTrace]
  all_goals
    rcases hcall : o.chapter_layer st.master_plot st.backstories st.characters i
      (if st.chapter_plots.isEmpty then none else some st.chapter_plots)
      (if st.chapter_intents.isEmpty then none else some st.chapter_intents)
      (i == cc - 1) with e | pq <;>
    simp [hcall]

theorem setW_addTrace (w : List String) (st : GenState) (e : Event) :
    (setW w st).addTrace e = setW w (st.addTrace e) := rfl

/-- `noteValidation` touches only the warning log, so states differing only
in warnings stay so related, whatever the two judgments and messages are. -/
theorem noteValidation_setW_rel (st : GenState) (w : List String)
    (v1 m1 v2 m2 : String) :
    ∃ w2, noteValidation (setW w st) v2 m2 = setW w2 (noteValidation st v1 m1) := by
  unfold noteValidation
  by_cases h2 : containsSub v2 ("OK") = true
  · rw [if_pos h2]
    by_cases h1 : containsSub v1 ("OK") = true
    · rw [if_pos h1]; exact ⟨w, rfl⟩
    · rw [if_neg h1]; exact ⟨w, rfl⟩
  · rw [if_neg h2]
    by_cases h1 : containsSub v1 ("OK") = true
    · rw [if_pos h1]; exact ⟨w ++ [m2], rfl⟩
    · rw [if_neg h1]; exact ⟨w ++ [m2], rfl⟩

theorem warn_sectionStep (o : Oracles) (r : Bool) (ch : Nat) (cp : String)
    (sec : Nat) (st : GenState) (vars : SecLoopVars) (w : List String) :
    sectionStep o r ch cp sec (setW w st, vars) =
      ((setW w (sectionStep o r ch cp sec (st, vars)).1.1,
        (sectionStep o r ch cp sec (st, vars)).1.2),
       (sectionStep o r ch cp sec (st, vars)).2) := by
  unfold sectionStep
  rcases hm1 : (if r then (st.store.ensureSecDir ch (sec + 1)).readF (Key.sectionPlot ch sec)
      else none) with _ | v1 <;>
    rcases hm2 : (if r then (st.store.ensureSecDir ch (sec + 1)).readF (Key.sectionIntent ch sec)
      else none) with _ | v2 <;>
    simp only [setW, hm1, hm2, GenState.addTrace]
  all_goals
    first
    | rfl
    | (rcases hcall : o.section_layer st.master_plot st.backstories st.characters
        st.all_characters_timeline cp vars.prev_sections vars.prev_section_intent
        (if ch > 0 then st.section_plots.take ch else [])
        (if ch + 1 < st.chapter_plots.length then st.chapter_plots.drop (ch + 1) else [])
        with e | pq <;> simp [hcall])

theorem warn_paragraphFinish (o : Oracles) (ch sec p : Nat) (st : GenState)
    (story : String) (vars : ParaLoopVars) (pg pi : String) (w : List String) :
    paragraphFinish o ch sec p (setW w st) story vars pg pi =
      ((setW w (paragraphFinish o ch sec p st story vars pg pi).1.1,
        (paragraphFinish o ch sec p st story vars pg pi).1.2.1,
        (paragraphFinish o ch sec p st story vars pg pi).1.2.2),
       (paragraphFinish o ch sec p st story vars pg pi).2) := rfl

theorem warn_paragraphStep (o : Oracles) (r : Bool) (ch sec : Nat) (sp : String)
    (p : Nat) (st : GenState) (story : String) (vars : ParaLoopVars)
    (w : List String) :
    paragraphStep o r ch sec sp p (setW w st, story, vars) =
      ((setW w (paragraphStep o r ch sec sp p (st, story, vars)).1.1,
        (paragraphStep o r ch sec sp p (st, story, vars)).1.2.1,
        (paragraphStep o r ch sec sp p (st, story, vars)).1.2.2),
       (paragraphStep o r ch sec sp p (st, story, vars)).2) := by
  unfold paragraphStep
  rcases hm1 : (if r then st.store.readF (Key.paragraphText ch sec p) else none)
      with _ | v1 <;>
    rcases hm2 : (if r then st.store.readF (Key.paragraphIntent ch sec p) else none)
      with _ | v2 <;>
    simp only [setW, hm1, hm2, GenState.addTrace]
  all_goals
    first
    | rfl
    | (rcases hcall : o.paragraph_layer st.master_plot st.backstories st.characters
        st.all_characters_timeline sp vars.prev_paragraphs vars.prev_paragraph_intent
        with e | pq <;> simp [hcall, paragraphFinish, GenState.addTrace])

theorem warn_paragraphSectionBody (o : Oracles) (r : Bool) (ch sec : Nat)
    (st : GenState) (story : String) (w : List String) :
    paragraphSectionBody o r ch sec (setW w st, story) =
      ((setW w (paragraphSectionBody o r ch sec (st, story)).1.1,
        (paragraphSectionBody o r ch sec (st, story)).1.2),
       (paragraphSectionBody o r ch sec (st, story)).2) := by
  unfold paragraphSectionBody
  have hmap := pyFor_map (fun t => (setW w t.1, t.2.1, t.2.2))
    (fun p s => paragraphStep o r ch sec ((st.section_plots.getD ch []).getD sec "") p s)
    (List.range (if r then max 5 (st.store.discoverParagraphs ch sec) else 5))
    (fun p _ s => warn_paragraphStep o r ch sec
      ((st.section_plots.getD ch []).getD sec "") p s.1 s.2.1 s.2.2 w)
    (st, story ++ ("\nSection " ++ toString (sec + 1) ++ "\n"), ParaLoopVars.init)
  simp only [setW] at hmap ⊢
  rw [hmap]

theorem warn_paragraphChapterBody (o : Oracles) (r : Bool) (ch : Nat)
    (st : GenState) (story : String) (w : List String) :
    paragraphChapterBody o r ch (setW w st, story) =
      ((setW w (paragraphChapterBody o r ch (st, story)).1.1,
        (paragraphChapterBody o r ch (st, story)).1.2),
       (paragraphChapterBody o r ch (st, story)).2) := by
  unfold paragraphChapterBody
  have hmap := pyFor_map (fun t => (setW w t.1, t.2))
    (paragraphSectionBody o r ch)
    (List.range (st.section_plots.getD ch []).length)
    (fun sec _ s => warn_paragraphSectionBody o r ch sec s.1 s.2 w)
    (st, story ++ ("\n\nChapter " ++ toString (ch + 1) ++ "\n\n"))
  simp only [setW] at hmap ⊢
  rw [hmap]

/-- Runs of one chapter iteration under two validation-filter records differ
at most in the warning log and agree on raising. -/
theorem rel_chapterBody (o : Oracles) (f1 f2 : Filters) (r : Bool) (cc ch : Nat)
    (st : GenState) (w : List String) :
    (∃ w2, (chapterBody o f2 r cc ch (setW w st)).1 =
      setW w2 (chapterBody o f1 r cc ch st).1) ∧
    (chapterBody o f2 r cc ch (setW w st)).2 = (chapterBody o f1 r cc ch st).2 := by
  unfold chapterBody
  have h2 := warn_chapterStep o r cc ch st w
  rcases h1 : chapterStep o r cc ch st with ⟨⟨S1, p, q⟩, e⟩
  rw [h1] at h2
  dsimp only at h2
  cases e with
  | some e =>
      simp only [h1, h2]
      exact ⟨⟨w, rfl⟩, trivial⟩
  | none =>
      simp only [h1, h2]
      set S2 : GenState := { S1 with
        chapter_plots := S1.chapter_plots ++ [p]
        chapter_intents := S1.chapter_intents ++ [q] } with hS2
      have hupd : ({ setW w S1 with
          chapter_plots := (setW w S1).chapter_plots ++ [p]
          chapter_intents := (setW w S1).chapter_intents ++ [q] } : GenState) = setW w S2 := rfl
      rw [hupd]
      have h4 := warn_generate_timeline o r ch S2 w
      rcases h3 : generate_timeline_for_chapter o r ch S2 with ⟨T, e2⟩
      rw [h3] at h4
      dsimp only at h4
      cases e2 with
      | some e =>
          simp only [h3, h4]
          exact ⟨⟨w, rfl⟩, trivial⟩
      | none =>
          simp only [h3, h4]
          rw [setW_addTrace]
          exact ⟨noteValidation_setW_rel (T.addTrace (Event.bcvfCall ch)) w _ _ _ _, trivial⟩

/-- Runs of `generate_chapters` under two validation-filter records differ at
most in the warning log and agree on raising. -/
theorem rel_generate_chapters (o : Oracles) (f1 f2 : Filters) (r : Bool)
    (u : String) (cc : Nat) (st : GenState) (w : List String) :
    (∃ w2, (generate_chapters o f2 r u cc (setW w st)).1 =
      setW w2 (generate_chapters o f1 r u cc st).1) ∧
    (generate_chapters o f2 r u cc (setW w st)).2 =
      (generate_chapters o f1 r u cc st).2 := by
  unfold generate_chapters
  have hchain : (if (setW w st).characters = "" then generate_characters o r u (setW w st)
      else setW w st) =
      setW w (if st.characters = "" then generate_characters o r u st else st) := by
    have hcond : (setW w st).characters = st.characters := rfl
    simp only [hcond]
    by_cases hc : st.characters = ""
    · rw [if_pos hc, if_pos hc]
      exact warn_generate_characters o r u st w
    · rw [if_neg hc, if_neg hc]
  rw [hchain]
  set st1 := if st.characters = "" then generate_characters o r u st else st with hst1
  have hrel := pyFor_rel (fun s1 s2 => ∃ v, s2 = setW v s1)
    (chapterBody o f1 r cc) (chapterBody o f2 r cc) (List.range cc)
    (fun i _ s1 s2 hR => by
      obtain ⟨v, rfl⟩ := hR
      obtain ⟨hw, he⟩ := rel_chapterBody o f1 f2 r cc i s1 v
      exact ⟨hw, he.symm⟩)
    st1 (setW w st1) ⟨w, rfl⟩
  rcases hp1 : pyFor (chapterBody o f1 r cc) (List.range cc) st1 with ⟨P1, e1⟩
  rcases hp2 : pyFor (chapterBody o f2 r cc) (List.range cc) (setW w st1) with ⟨P2, e2⟩
  rw [hp1, hp2] at hrel
  dsimp only at hrel
  obtain ⟨⟨v, rfl⟩, he⟩ := hrel
  subst he
  cases e1 with
  | some e =>
      simp only [hp1, hp2]
      exact ⟨⟨v, rfl⟩, trivial⟩
  | none =>
      simp only [hp1, hp2]
      rw [setW_addTrace]
      exact ⟨noteValidation_setW_rel (P1.addTrace Event.chCcvfCall) v _ _ _ _, trivial⟩

theorem setW_store (w : List String) (st : GenState) : (setW w st).store = st.store := rfl

theorem setW_trace (w : List String) (st : GenState) : (setW w st).trace = st.trace := rfl

theorem setW_master_plot (w : List String) (st : GenState) :
    (setW w st).master_plot = st.master_plot := rfl

theorem setW_backstories (w : List String) (st : GenState) :
    (setW w st).backstories = st.backstories := rfl

theorem setW_characters (w : List String) (st : GenState) :
    (setW w st).characters = st.characters := rfl

theorem setW_chapter_plots (w : List String) (st : GenState) :
    (setW w st).chapter_plots = st.chapter_plots := rfl

theorem setW_chapter_intents (w : List String) (st : GenState) :
    (setW w st).chapter_intents = st.chapter_intents := rfl

theorem setW_all_characters_timeline (w : List String) (st : GenState) :
    (setW w st).all_characters_timeline = st.all_characters_timeline := rfl

theorem setW_section_plots (w : List String) (st : GenState) :
    (setW w st).section_plots = st.section_plots := rfl

theorem setW_section_intents (w : List String) (st : GenState) :
    (setW w st).section_intents = st.section_intents := rfl

theorem setW_story_text (w : List String) (st : GenState) :
    (setW w st).story_text = st.story_text := rfl

/-- `noteValidation` followed by the per-chapter section-list append keeps
warnings-only-related states warnings-only related. -/
theorem noteValidation_setW_secUpdate (st : GenState) (w : List String)
    (v1 m1 v2 m2 : String) (a b : List String) :
    ∃ w2, ({ noteValidation (setW w st) v2 m2 with
        section_plots := (noteValidation (setW w st) v2 m2).section_plots ++ [a]
        section_intents := (noteValidation (setW w st) v2 m2).section_intents ++ [b] } : GenState) =
      setW w2 { noteValidation st v1 m1 with
        section_plots := (noteValidation st v1 m1).section_plots ++ [a]
        section_intents := (noteValidation st v1 m1).section_intents ++ [b] } := by
  unfold noteValidation
  by_cases h2 : containsSub v2 ("OK") = true
  · rw [if_pos h2]
    by_cases h1 : containsSub v1 ("OK") = true
    · rw [if_pos h1]; exact ⟨w, rfl⟩
    · rw [if_neg h1]; exact ⟨w, rfl⟩
  · rw [if_neg h2]
    by_cases h1 : containsSub v1 ("OK") = true
    · rw [if_pos h1]; exact ⟨w ++ [m2], rfl⟩
    · rw [if_neg h1]; exact ⟨w ++ [m2], rfl⟩

/-- Runs of the per-chapter section body under two validation-filter records
differ at most in the warning log and agree on raising. -/
theorem rel_sectionChapterBody (o : Oracles) (f1 f2 : Filters) (r : Bool)
    (ch : Nat) (st : GenState) (w : List String) :
    (∃ w2, (sectionChapterBody o f2 r ch (setW w st)).1 =
      setW w2 (sectionChapterBody o f1 r ch st).1) ∧
    (sectionChapterBody o f2 r ch (setW w st)).2 =
      (sectionChapterBody o f1 r ch st).2 := by
  unfold sectionChapterBody
  simp only [setW_chapter_plots, setW_store]
  have hmap := pyFor_map (fun t : GenState × SecLoopVars => (setW w t.1, t.2))
    (fun sec s => sectionStep o r ch (st.chapter_plots.getD ch "") sec s)
    (List.range (if r then max 3 (st.store.discoverSections ch) else 3))
    (fun sec _ s => warn_sectionStep o r ch (st.chapter_plots.getD ch "") sec s.1 s.2 w)
    (st, SecLoopVars.init)
  dsimp only at hmap
  rw [hmap]
  rcases hp : pyFor (fun sec s => sectionStep o r ch (st.chapter_plots.getD ch "") sec s)
      (List.range (if r then max 3 (st.store.discoverSections ch) else 3))
      (st, SecLoopVars.init) with ⟨⟨P1, V1⟩, e1⟩
  simp only [hp]
  cases e1 with
  | some e => exact ⟨⟨w, rfl⟩, rfl⟩
  | none =>
      dsimp only
      rw [setW_addTrace]
      exact ⟨noteValidation_setW_secUpdate (P1.addTrace (Event.secCcvfCall ch)) w
        _ _ _ _ _ _, rfl⟩

/-- Runs of `generate_sections` under two validation-filter records differ at
most in the warning log and agree on raising. -/
theorem rel_generate_sections (o : Oracles) (f1 f2 : Filters) (r : Bool)
    (u : String) (cc : Nat) (st : GenState) (w : List String) :
    (∃ w2, (generate_sections o f2 r u cc (setW w st)).1 =
      setW w2 (generate_sections o f1 r u cc st).1) ∧
    (generate_sections o f2 r u cc (setW w st)).2 =
      (generate_sections o f1 r u cc st).2 := by
  have hmain : ∀ (G : GenState) (v : List String),
      (∃ w2, (pyFor (sectionChapterBody o f2 r)
          (List.range G.chapter_plots.length)
          (setW v { G with section_plots := [], section_intents := [] })).1 =
        setW w2 (pyFor (sectionChapterBody o f1 r)
          (List.range G.chapter_plots.length)
          { G with section_plots := [], section_intents := [] }).1) ∧
      ((pyFor (sectionChapterBody o f2 r) (List.range G.chapter_plots.length)
          (setW v { G with section_plots := [], section_intents := [] })).2 =
        (pyFor (sectionChapterBody o f1 r) (List.range G.chapter_plots.length)
          { G with section_plots := [], section_intents := [] }).2) := by
    intro G v
    have h := pyFor_rel (fun s1 s2 => ∃ u2, s2 = setW u2 s1)
      (sectionChapterBody o f1 r) (sectionChapterBody o f2 r)
      (List.range G.chapter_plots.length)
      (fun i _ s1 s2 hR => by
        obtain ⟨u2, rfl⟩ := hR
        obtain ⟨hw, he⟩ := rel_sectionChapterBody o f1 f2 r i s1 u2
        exact ⟨hw, he.symm⟩)
      { G with section_plots := [], section_intents := [] }
      (setW v { G with section_plots := [], section_intents := [] }) ⟨v, rfl⟩
    exact ⟨h.1, h.2.symm⟩
  unfold generate_sections
  simp only [setW_chapter_plots]
  by_cases hc : st.chapter_plots.isEmpty = true
  · rw [if_pos hc, if_pos hc]
    obtain ⟨⟨v, hv⟩, he⟩ := rel_generate_chapters o f1 f2 r u cc st w
    rcases hg1 : generate_chapters o f1 r u cc st with ⟨G1, e1⟩
    rcases hg2 : generate_chapters o f2 r u cc (setW w st) with ⟨G2, e2⟩
    rw [hg1, hg2] at hv he
    dsimp only at hv he
    subst hv
    subst he
    cases e2 with
    | some e => exact ⟨⟨v, rfl⟩, rfl⟩
    | none =>
        dsimp only [setW_chapter_plots]
        exact hmain G1 v
  · rw [if_neg hc, if_neg hc]
    dsimp only [setW_chapter_plots]
    exact hmain st w

/-- Runs of `generate_paragraphs` under two validation-filter records differ
at most in the warning log and agree on raising. -/
theorem rel_generate_paragraphs (o : Oracles) (f1 f2 : Filters) (r : Bool)
    (u : String) (cc : Nat) (st : GenState) (w : List String) :
    (∃ w2, (generate_paragraphs o f2 r u cc (setW w st)).1 =
      setW w2 (generate_paragraphs o f1 r u cc st).1) ∧
    (generate_paragraphs o f2 r u cc (setW w st)).2 =
      (generate_paragraphs o f1 r u cc st).2 := by
  unfold generate_paragraphs
  simp only [setW_section_plots]
  by_cases hc : st.section_plots.isEmpty = true
  · rw [if_pos hc, if_pos hc]
    obtain ⟨⟨v, hv⟩, he⟩ := rel_generate_sections o f1 f2 r u cc st w
    rcases hg1 : generate_sections o f1 r u cc st with ⟨G1, e1⟩
    rcases hg2 : generate_sections o f2 r u cc (setW w st) with ⟨G2, e2⟩
    rw [hg1, hg2] at hv he
    dsimp only at hv he
    subst hv
    subst he
    cases e2 with
    | some e => exact ⟨⟨v, rfl⟩, rfl⟩
    | none =>
        dsimp only [setW_chapter_plots, setW_section_plots]
        have hmap := pyFor_map (fun t : GenState × String => (setW v t.1, t.2))
          (paragraphChapterBody o r)
          (List.range (min G1.chapter_plots.length G1.section_plots.length))
          (fun ch _ s => warn_paragraphChapterBody o r ch s.1 s.2 v)
          (G1, "")
        dsimp only at hmap
        rw [hmap]
        rcases hp : pyFor (paragraphChapterBody o r)
            (List.range (min G1.chapter_plots.length G1.section_plots.length))
            (G1, "") with ⟨⟨P1, T1⟩, e1⟩
        cases e1 with
        | some e => exact ⟨⟨v, rfl⟩, rfl⟩
        | none => exact ⟨⟨v, rfl⟩, rfl⟩
  · rw [if_neg hc, if_neg hc]
    dsimp only [setW_chapter_plots, setW_section_plots]
    have hmap := pyFor_map (fun t : GenState × String => (setW w t.1, t.2))
      (paragraphChapterBody o r)
      (List.range (min st.chapter_plots.length st.section_plots.length))
      (fun ch _ s => warn_paragraphChapterBody o r ch s.1 s.2 w)
      (st, "")
    dsimp only at hmap
    rw [hmap]
    rcases hp : pyFor (paragraphChapterBody o r)
        (List.range (min st.chapter_plots.length st.section_plots.length))
        (st, "") with ⟨⟨P1, T1⟩, e1⟩
    cases e1 with
    | some e => exact ⟨⟨w, rfl⟩, rfl⟩
    | none => exact ⟨⟨w, rfl⟩, rfl⟩

/-- C3: validation noninterference — two runs of the full pipeline that are
identical except for the strings returned by the validation filters produce
the same sequence of stage invocations, the same persisted-artifact store
(hence the same `complete_story.txt`), the same assembled story text, and the
same raising behaviour; a filter judgment lacking the `OK` marker only
appends a warning message and never halts or alters anything else. -/
theorem validation_noninterference (o : Oracles) (f1 f2 : Filters) (r : Bool)
    (u : String) (cc : Nat) (st : GenState) :
    (generate_paragraphs o f2 r u cc st).1.trace =
      (generate_paragraphs o f1 r u cc st).1.trace ∧
    (generate_paragraphs o f2 r u cc st).1.store =
      (generate_paragraphs o f1 r u cc st).1.store ∧
    (generate_paragraphs o f2 r u cc st).1.story_text =
      (generate_paragraphs o f1 r u cc st).1.story_text ∧
    (generate_paragraphs o f2 r u cc st).2 =
      (generate_paragraphs o f1 r u cc st).2 ∧
    (∀ st2 v m, (noteValidation st2 v m).core = st2.core) ∧
    (∀ st2 v m, containsSub v ("OK") = false →
      noteValidation st2 v m = { st2 with warnings := st2.warnings ++ [m] }) := by
  obtain ⟨⟨w2, hw⟩, he⟩ :=
    rel_generate_paragraphs o f1 f2 r u cc st st.warnings
  refine ⟨?_, ?_, ?_, he, ?_, ?_⟩
  · exact (congrArg GenState.trace hw).trans (setW_trace w2 _)
  · exact (congrArg GenState.store hw).trans (setW_store w2 _)
  · exact (congrArg GenState.story_text hw).trans (setW_story_text w2 _)
  · intro st2 v m
    unfold noteValidation GenState.core
    split <;> rfl
  · intro st2 v m hv
    unfold noteValidation
    rw [if_neg]
    simp [hv]

/-- Closed instance of C3: the concrete always-failing filter record produces
the same trace as the always-passing one on a fresh one-chapter run, and a
concrete failing judgment only appends its warning message. -/
theorem validation_noninterference_witness :
    (generate_paragraphs oracleFixed filtersNG false "u" 1
        (GenState.init Store.empty)).1.trace =
      (generate_paragraphs oracleFixed filtersOK false "u" 1
        (GenState.init Store.empty)).1.trace ∧
    noteValidation (GenState.init Store.empty) "INCONSISTENT" "warned" =
      { GenState.init Store.empty with warnings := ["warned"] } := by
  have h := validation_noninterference oracleFixed filtersOK filtersNG false "u" 1
    (GenState.init Store.empty)
  exact ⟨h.1, h.2.2.2.2.2 (GenState.init Store.empty) "INCONSISTENT" "warned" (by decide)⟩

/-! ### Claim C4 — story-text assembly -/

/-- C4: a fresh one-chapter run with the default counts assembles the story
in strictly increasing chapter, section, paragraph order — one chapter
header, then per section a section header followed by the five styled
paragraph bodies — persists exactly that string as `complete_story.txt`, and
the headers and bodies occur exactly 1, 3 and 15 times; with a constant
style filter the story contains the 15 styled bodies and none of the raw
paragraph text. -/
theorem story_text_assembly :
    (generate_paragraphs oracleFixed filtersOK false "u" 1
        (GenState.init Store.empty)).2 = none ∧
    (generate_paragraphs oracleFixed filtersOK false "u" 1
        (GenState.init Store.empty)).1.story_text =
      "\n\nChapter 1\n\n" ++
        ("\nSection 1\n" ++ ("\nP0" ++ "\nP1" ++ "\nP2" ++ "\nP3" ++ "\nP4")) ++
        ("\nSection 2\n" ++ ("\nP0" ++ "\nP1" ++ "\nP2" ++ "\nP3" ++ "\nP4")) ++
        ("\nSection 3\n" ++ ("\nP0" ++ "\nP1" ++ "\nP2" ++ "\nP3" ++ "\nP4")) ∧
    (generate_paragraphs oracleFixed filtersOK false "u" 1
        (GenState.init Store.empty)).1.store.readF Key.completeStory =
      some ((generate_paragraphs oracleFixed filtersOK false "u" 1
        (GenState.init Store.empty)).1.story_text) ∧
    countSub (generate_paragraphs oracleFixed filtersOK false "u" 1
        (GenState.init Store.empty)).1.story_text "Chapter " = 1 ∧
    countSub (generate_paragraphs oracleFixed filtersOK false "u" 1
        (GenState.init Store.empty)).1.story_text "Section " = 3 ∧
    countSub (generate_paragraphs oracleFixed filtersOK false "u" 1
        (GenState.init Store.empty)).1.story_text "\nP" = 15 ∧
    countSub (generate_paragraphs oracleAllX filtersOK false "u" 1
        (GenState.init Store.empty)).1.story_text "X" = 15 ∧
    containsSub (generate_paragraphs oracleAllX filtersOK false "u" 1
        (GenState.init Store.empty)).1.story_text "P" = false := by
  exact ⟨rfl, rfl, rfl, rfl, rfl, rfl, rfl, rfl⟩
